import Mathlib

/-!
# Firmament: stream-sockets messaging channel

A shallow embedding of `StreamSocketsChannel<T>`
(`src/platforms/unix/stream_sockets_channel-inl.h`) and proofs about its framing,
its readiness flag, its close path and its three-stage asynchronous receive.

The channel object is a record of its C++ members.  The things the object talks to
(its TCP socket, the io_service, the heap cells that hold destination envelopes, the
order in which locks, parses and callbacks happen) are explicit components of the
same record, so that every member function is a pure function from a state to an
outcome and a new state.  Calls that do not return normally (a failed `CHECK`, an
exception thrown by a Boost call without an `error_code` argument or by the
construction of a buffer that is too large, a dereferenced empty smart pointer, a
`lock()` on a mutex that is already held) are outcomes of their own.
-/

namespace Firmament

/-! ## Bytes and the size preamble -/

/-- One `char` of a buffer, as its unsigned value. -/
abbrev Byte := Nat

/-- The facts about the host the channel depends on. -/
structure Platform where
  /-- The value of `sizeof(size_t)`. -/
  sizeof_size_t : Nat
  /-- Byte order of the host. -/
  big_endian : Bool
  /-- The largest size for which the construction of a `vector<char>` succeeds; for a larger
  size it throws (`std::length_error` or `std::bad_alloc`).  The buffers of `sizeof(size_t)`
  bytes are taken to be within it. -/
  max_alloc : Nat
deriving DecidableEq

/-- Conversion of a non-negative integer to `size_t`. -/
def to_size_t (P : Platform) (n : Nat) : Nat :=
  n % 256 ^ P.sizeof_size_t

/-- The `w` low-order bytes of `n`, least significant first. -/
def le_bytes : Nat → Nat → List Byte
  | 0, _ => []
  | w + 1, n => n % 256 :: le_bytes w (n / 256)

/-- The number whose bytes, least significant first, are the given ones. -/
def le_value : List Byte → Nat
  | [] => 0
  | b :: bs => b % 256 + 256 * le_value bs

/-- The object representation of a `size_t`: what
`reinterpret_cast<char*>(&msg_size)` points to, `sizeof(msg_size)` bytes long. -/
def size_to_bytes (P : Platform) (n : Nat) : List Byte :=
  if P.big_endian then (le_bytes P.sizeof_size_t n).reverse else le_bytes P.sizeof_size_t n

/-- The value read by `*reinterpret_cast<size_t*>(&buf[0])`. -/
def bytes_to_size (P : Platform) (buf : List Byte) : Nat :=
  if P.big_endian then le_value (buf.take P.sizeof_size_t).reverse
  else le_value (buf.take P.sizeof_size_t)

/-- A `vector<char>` of the given size, value-initialised. -/
def new_buffer (n : Nat) : List Byte :=
  List.replicate n 0

/-- Writing `data` at the start of the buffer `buf`: the buffer keeps its size. -/
def store (buf data : List Byte) : List Byte :=
  data.take buf.length ++ buf.drop data.length

/-! ## The envelope contract (`misc/envelope.h`, a parameter of the channel) -/

/-- The three operations `Envelope<T>` offers to the channel, over a type `M` of
envelope values.  `Serialize m cap` is the bytes written to the destination pointer, or
`none` when the call returns false.  `Parse m buf len` is the value returned and the
envelope after the call. -/
structure Envelope (M : Type) where
  size : M → Nat
  Serialize : M → Nat → Option (List Byte)
  Parse : M → List Byte → Nat → Bool × M

/-! ## Error codes, sockets and the io_service -/

/-- The non-zero values of `boost::system::error_code` that occur. -/
inductive ErrorCode
  | eof
  | host_not_found
  | bad_descriptor
  | not_connected
  | broken_pipe
  | other (errno : Nat)
deriving DecidableEq

/-- A `boost::system::error_code`: `none` is success. -/
abbrev error_code := Option ErrorCode

/-- A resolved TCP endpoint. -/
structure Endpoint where
  address : String
  port : Nat
deriving DecidableEq

/-- What a connected socket is connected to, seen from this end: the bytes the peer
sends (and how the stream ends once they are used up), the bytes handed to the kernel
so far, and how many more bytes the connection accepts before a write fails
(`none`: no limit). -/
structure Link where
  inbound : List Byte
  inbound_end : ErrorCode
  outbound : List Byte
  send_room : Option Nat
  send_error : ErrorCode
deriving DecidableEq

/-- A `tcp::socket`. -/
structure Socket where
  is_open : Bool
  remote : Option Endpoint
  shut_down : Bool
  link : Link
deriving DecidableEq

/-- The link of a socket that is not connected. -/
def Link.unconnected : Link :=
  { inbound := [], inbound_end := ErrorCode.not_connected, outbound := [],
    send_room := some 0, send_error := ErrorCode.not_connected }

/-- The socket made by `new tcp::socket(io_service)`: not open. -/
def Socket.fresh : Socket :=
  { is_open := false, remote := none, shut_down := false, link := Link.unconnected }

/-- The result of `connect` on an open socket. -/
inductive ConnectResult
  | refused (e : ErrorCode)
  | established (l : Link)
deriving DecidableEq

/-- One entry of the resolver's result, with what the network answers for it:
whether a socket for its protocol can be opened, and what a connect attempt yields. -/
structure Candidate where
  endpoint : Endpoint
  open_error : error_code
  result : ConnectResult
deriving DecidableEq

/-- Member `close()`: closing a socket that is not open is not an error. -/
def Socket.close (k : Socket) : Socket :=
  { k with is_open := false, remote := none, shut_down := false, link := Link.unconnected }

/-- Member `connect(endpoint, ec)`.  As Boost.Asio documents it: the socket is automatically
opened if it is not already open, and if the connect fails and the socket was automatically
opened, the socket is not returned to the closed state. -/
def Socket.connect (k : Socket) (c : Candidate) : error_code × Socket :=
  if !k.is_open && c.open_error.isSome then (c.open_error, k)
  else
    match c.result with
    | ConnectResult.refused e => (some e, { k with is_open := true })
    | ConnectResult.established l =>
      (none, { k with is_open := true, remote := some c.endpoint, shut_down := false, link := l })

/-- Whether the connection of the socket has ended: this end has shut it down and the peer
ends its stream too (`inbound_end` is `eof`). -/
def Socket.ended (k : Socket) : Bool :=
  k.shut_down && decide (k.link.inbound_end = ErrorCode.eof)

/-- Member `shutdown(shutdown_both)`, the overload without an `error_code`: it throws when the
socket is not open, when it is not connected, and when its connection has ended (the system
call then fails with `ENOTCONN`).  A repeated shutdown succeeds only as long as the peer keeps
its end open. -/
def Socket.shutdown (k : Socket) : Except ErrorCode Socket :=
  if !k.is_open then Except.error ErrorCode.bad_descriptor
  else if k.remote.isNone then Except.error ErrorCode.not_connected
  else if k.ended then Except.error ErrorCode.not_connected
  else Except.ok { k with shut_down := true }

/-- The call `boost::asio::write(socket, buffer, transfer_at_least(size of buffer), ec)`:
the error, the number of bytes transferred, and the socket afterwards.  A write of no bytes
transfers nothing and succeeds.  Without error all bytes are transferred; with an error, the
bytes the connection still had room for. -/
def Socket.write (k : Socket) (data : List Byte) : error_code × Nat × Socket :=
  if data.isEmpty then (none, 0, k)
  else if !k.is_open then (some ErrorCode.bad_descriptor, 0, k)
  else if k.remote.isNone then (some ErrorCode.not_connected, 0, k)
  else if k.shut_down then (some ErrorCode.broken_pipe, 0, k)
  else
    match k.link.send_room with
    | none => (none, data.length, { k with link := { k.link with outbound := k.link.outbound ++ data } })
    | some room =>
      if data.length ≤ room then
        (none, data.length,
          { k with link := { k.link with outbound := k.link.outbound ++ data,
                                         send_room := some (room - data.length) } })
      else
        (some k.link.send_error, room,
          { k with link := { k.link with outbound := k.link.outbound ++ data.take room,
                                         send_room := some 0 } })

/-- The call `read(socket, buffer of n bytes, transfer_at_least(n), ec)`: the error, the bytes
put into the buffer (their number is the value returned), and the socket afterwards.  A read
of no bytes succeeds.  `inbound` is all the peer sends: a read that asks for more gets what
is left and ends with the error `inbound_end`. -/
def Socket.read (k : Socket) (n : Nat) : error_code × List Byte × Socket :=
  if n = 0 then (none, [], k)
  else if !k.is_open then (some ErrorCode.bad_descriptor, [], k)
  else if k.remote.isNone then (some ErrorCode.not_connected, [], k)
  else if k.shut_down then (some ErrorCode.eof, [], k)
  else if n ≤ k.link.inbound.length then
    (none, k.link.inbound.take n, { k with link := { k.link with inbound := k.link.inbound.drop n } })
  else
    (some k.link.inbound_end, k.link.inbound, { k with link := { k.link with inbound := [] } })

/-- The part of a `boost::asio::io_service` the channel acts on. -/
structure io_service where
  /-- Number of live `io_service::work` objects. -/
  work : Nat
  /-- Number of threads started on `io_service::run`. -/
  threads : Nat
deriving DecidableEq

/-! ## The channel -/

/-- The enumeration `StreamSocketType`. -/
inductive StreamSocketType
  | SS_TCP
  | SS_UNIX
deriving DecidableEq

/-- The member functions bound as completion handlers of `async_read`. -/
inductive ReadHandler
  | RecvASecondStage
  | RecvAThirdStage
deriving DecidableEq

/-- A queued `async_read`: the size of the buffer and the handler. -/
structure ReadOp where
  size : Nat
  handler : ReadHandler
deriving DecidableEq

/-- A queued `async_write`: the bytes of the buffer and the callback. -/
structure WriteOp where
  data : List Byte
  callback : Nat
deriving DecidableEq

/-- The observable steps of the channel, recorded in the order in which they happen: the
mutex `async_recv_lock_` is taken or released, `Parse` is called on the envelope behind a
pointer (with its buffer, length and result), a receive or send callback is called, a connect
is attempted. -/
inductive Event
  | lock
  | unlock
  | parse (message : Nat) (buf : List Byte) (len : Nat) (result : Bool)
  | recv_callback (callback : Nat) (error : error_code) (bytes_read : Nat)
  | send_callback (callback : Nat) (error : error_code) (bytes_transferred : Nat)
  | connect (endpoint : Endpoint)
deriving DecidableEq

/-- The members of `StreamSocketsChannel<T>` and what they refer to.  Envelopes passed by
pointer and callbacks are named by numbers; `heap` holds the envelope behind each pointer.
`async_recv_buffer_` is a view of `async_recv_buffer_vec_` and `client_connection_` only keeps
the accepted connection alive: neither is a component. -/
structure StreamSocketsChannel (M : Type) where
  client_io_service_ : io_service
  io_service_work_ : Bool
  client_socket_ : Option Socket
  async_recv_buffer_vec_ : Option (List Byte)
  async_recv_message_ptr_ : Option Nat
  async_recv_lock_ : Bool
  async_recv_callback_ : Option Nat
  channel_ready_ : Bool
  type_ : StreamSocketType
  read_queue : List ReadOp
  write_queue : List WriteOp
  heap : Nat → M
  trace : List Event

/-- Ways in which a call does not return normally: an empty smart pointer is dereferenced, a
`CHECK` fails, a Boost call throws a `system_error`, the construction of a `vector<char>`
throws, or `lock()` waits for a mutex that is held. -/
inductive Fault
  | null_pointer
  | check_failed
  | system_error (e : ErrorCode)
  | bad_alloc
  | blocked
deriving DecidableEq

/-- How a call ends. -/
inductive Outcome (α : Type)
  | returned (a : α)
  | fault (f : Fault)
deriving DecidableEq

/-- The host names and connections the channel can reach. -/
structure Network where
  GetHostnameFromURI : String → String
  GetPortFromURI : String → String
  /-- The call `resolver.resolve(query)`: it throws on failure. -/
  resolve : String → String → Except ErrorCode (List Candidate)

variable {M : Type}

/-- The constructor `StreamSocketsChannel(StreamSocketType type)`: a new io_service, no
socket, not ready.  `LOG(FATAL)` for `SS_UNIX`. -/
def StreamSocketsChannel.create (type : StreamSocketType) (heap : Nat → M) :
    Outcome Unit × StreamSocketsChannel M :=
  let s : StreamSocketsChannel M :=
    { client_io_service_ := { work := 0, threads := 0 },
      io_service_work_ := false,
      client_socket_ := none,
      async_recv_buffer_vec_ := none,
      async_recv_message_ptr_ := none,
      async_recv_lock_ := false,
      async_recv_callback_ := none,
      channel_ready_ := false,
      type_ := type,
      read_queue := [],
      write_queue := [],
      heap := heap,
      trace := [] }
  match type with
  | StreamSocketType.SS_TCP => (Outcome.returned (), s)
  | StreamSocketType.SS_UNIX => (Outcome.fault Fault.check_failed, s)

/-- The constructor `StreamSocketsChannel(TCPConnection::connection_ptr connection)`: the
channel shares the io_service of the connection's socket, puts a work object on it, and is
ready when the socket is open. -/
def StreamSocketsChannel.adopt (ios : io_service) (socket : Socket) (heap : Nat → M) :
    StreamSocketsChannel M :=
  { client_io_service_ := { ios with work := ios.work + 1 },
    io_service_work_ := true,
    client_socket_ := some socket,
    async_recv_buffer_vec_ := none,
    async_recv_message_ptr_ := none,
    async_recv_lock_ := false,
    async_recv_callback_ := none,
    channel_ready_ := if socket.is_open then true else false,
    type_ := StreamSocketType.SS_TCP,
    read_queue := [],
    write_queue := [],
    heap := heap,
    trace := [] }

/-- The member `Ready()`: `channel_ready_ && client_socket_->is_open()`. -/
def Ready (s : StreamSocketsChannel M) : Outcome Bool :=
  if s.channel_ready_ then
    match s.client_socket_ with
    | none => Outcome.fault Fault.null_pointer
    | some k => Outcome.returned k.is_open
  else Outcome.returned false

/-- The member `Close()`. -/
def Close (s : StreamSocketsChannel M) : Outcome Unit × StreamSocketsChannel M :=
  match s.client_socket_ with
  | none => (Outcome.fault Fault.null_pointer, s)
  | some k =>
    match k.shutdown with
    | Except.error e => (Outcome.fault (Fault.system_error e), s)
    | Except.ok k1 =>
      (Outcome.returned (), { s with client_socket_ := some k1, channel_ready_ := false })

/-- Destruction of the members after the destructor body: the `scoped_ptr` to the work
object deletes it. -/
def release_members (s : StreamSocketsChannel M) : StreamSocketsChannel M :=
  if s.io_service_work_ then
    { s with io_service_work_ := false,
             client_io_service_ := { s.client_io_service_ with work := s.client_io_service_.work - 1 } }
  else s

/-- The destructor `~StreamSocketsChannel()`, followed by the destruction of the members. -/
def destroy (s : StreamSocketsChannel M) : Outcome Unit × StreamSocketsChannel M :=
  match Ready s with
  | Outcome.fault f => (Outcome.fault f, s)
  | Outcome.returned true =>
    match Close { s with channel_ready_ := false } with
    | (Outcome.fault f, s1) => (Outcome.fault f, s1)
    | (Outcome.returned (), s1) => (Outcome.returned (), release_members s1)
  | Outcome.returned false => (Outcome.returned (), release_members s)

/-- The loop `while (error && endpoint_iterator != end) { close(); connect(*it++, error); }`:
the final error, the socket, and the endpoints tried, in order. -/
def connect_loop : error_code → List Candidate → Socket → error_code × Socket × List Endpoint
  | error, [], k => (error, k, [])
  | none, _ :: _, k => (none, k, [])
  | some _, c :: rest, k =>
    let r := connect_loop (k.close.connect c).1 rest (k.close.connect c).2
    (r.1, r.2.1, c.endpoint :: r.2.2)

/-- The first part of `Establish`: an open socket is shut down and the channel marked not
ready. -/
def Establish_teardown (s : StreamSocketsChannel M) : Outcome Unit × StreamSocketsChannel M :=
  match s.client_socket_ with
  | none => (Outcome.returned (), s)
  | some k =>
    if k.is_open then
      match k.shutdown with
      | Except.error e => (Outcome.fault (Fault.system_error e), s)
      | Except.ok k1 =>
        (Outcome.returned (), { s with client_socket_ := some k1, channel_ready_ := false })
    else (Outcome.returned (), s)

/-- The member `Establish(endpoint_uri)`. -/
def Establish (net : Network) (s : StreamSocketsChannel M) (endpoint_uri : String) :
    Outcome Bool × StreamSocketsChannel M :=
  match Establish_teardown s with
  | (Outcome.fault f, s1) => (Outcome.fault f, s1)
  | (Outcome.returned (), s1) =>
    let hostname := net.GetHostnameFromURI endpoint_uri
    let port := net.GetPortFromURI endpoint_uri
    match net.resolve hostname port with
    | Except.error e => (Outcome.fault (Fault.system_error e), s1)
    | Except.ok candidates =>
      let r := connect_loop (some ErrorCode.host_not_found) candidates Socket.fresh
      let s2 := { s1 with client_socket_ := some r.2.1,
                          trace := s1.trace ++ r.2.2.map Event.connect }
      if r.1.isSome then (Outcome.returned false, s2)
      else
        (Outcome.returned true,
          { s2 with
            io_service_work_ := true,
            client_io_service_ :=
              { work := s2.client_io_service_.work + 1 - (if s2.io_service_work_ then 1 else 0),
                threads := s2.client_io_service_.threads + 1 },
            channel_ready_ := true })

/-- Replace the socket of the channel. -/
def with_socket (s : StreamSocketsChannel M) (k : Socket) : StreamSocketsChannel M :=
  { s with client_socket_ := some k }

/-- The buffer `buf` of `SendS` and `SendA` after `message.Serialize(&buf[0], message.size())`,
or `none` when `Serialize` returns false. -/
def serialized (P : Platform) (env : Envelope M) (message : M) : Option (List Byte) :=
  match env.Serialize message (to_size_t P (env.size message)) with
  | none => none
  | some data => some (store (new_buffer (to_size_t P (env.size message))) data)

/-- The member `SendS(message)`. -/
def SendS (P : Platform) (env : Envelope M) (s : StreamSocketsChannel M) (message : M) :
    Outcome Bool × StreamSocketsChannel M :=
  let msg_size := to_size_t P (env.size message)
  if P.max_alloc < msg_size then (Outcome.fault Fault.bad_alloc, s)
  else
  match serialized P env message with
  | none => (Outcome.fault Fault.check_failed, s)
  | some buf =>
    match s.client_socket_ with
    | none => (Outcome.fault Fault.null_pointer, s)
    | some k =>
      let w1 := k.write (size_to_bytes P msg_size)
      if w1.1.isSome || w1.2.1 != P.sizeof_size_t then
        (Outcome.returned false, with_socket s w1.2.2)
      else
        let w2 := w1.2.2.write (buf.take msg_size)
        if w2.1.isSome || w2.2.1 != msg_size then
          (Outcome.returned false, with_socket s w2.2.2)
        else (Outcome.returned true, with_socket s w2.2.2)

/-- The member `SendA(message, callback)`: the two writes are queued with the bytes their
buffers hold at that moment. -/
def SendA (P : Platform) (env : Envelope M) (s : StreamSocketsChannel M) (message : M)
    (callback : Nat) : Outcome Bool × StreamSocketsChannel M :=
  let msg_size := to_size_t P (env.size message)
  if P.max_alloc < msg_size then (Outcome.fault Fault.bad_alloc, s)
  else
  match serialized P env message with
  | none => (Outcome.fault Fault.check_failed, s)
  | some buf =>
    match s.client_socket_ with
    | none => (Outcome.fault Fault.null_pointer, s)
    | some _ =>
      (Outcome.returned true,
        { s with write_queue := s.write_queue ++
            [{ data := size_to_bytes P msg_size, callback := callback },
             { data := buf.take msg_size, callback := callback }] })

/-- The member `RecvS(message)`. -/
def RecvS (P : Platform) (env : Envelope M) (s : StreamSocketsChannel M) (message : Nat) :
    Outcome Bool × StreamSocketsChannel M :=
  match Ready s with
  | Outcome.fault f => (Outcome.fault f, s)
  | Outcome.returned false => (Outcome.returned false, s)
  | Outcome.returned true =>
    match s.client_socket_ with
    | none => (Outcome.fault Fault.null_pointer, s)
    | some k =>
      let r1 := k.read P.sizeof_size_t
      let size_buf := store (new_buffer P.sizeof_size_t) r1.2.1
      if r1.1.isSome || r1.2.1.length != P.sizeof_size_t then
        (Outcome.returned false, with_socket s r1.2.2)
      else
        let msg_size := bytes_to_size P size_buf
        if msg_size = 0 then (Outcome.fault Fault.check_failed, with_socket s r1.2.2)
        else if P.max_alloc < msg_size then (Outcome.fault Fault.bad_alloc, with_socket s r1.2.2)
        else
          let r2 := r1.2.2.read msg_size
          let buf := store (new_buffer msg_size) r2.2.1
          let len := r2.2.1.length
          let s2 := with_socket s r2.2.2
          if r2.1 = some ErrorCode.eof then (Outcome.returned false, s2)
          else if r2.1.isSome then (Outcome.returned false, s2)
          else if len = 0 then (Outcome.fault Fault.check_failed, s2)
          else if len != msg_size then (Outcome.fault Fault.check_failed, s2)
          else
            let p := env.Parse (s2.heap message) buf len
            (Outcome.returned p.1,
              { s2 with heap := Function.update s2.heap message p.2,
                        trace := s2.trace ++ [Event.parse message buf len p.1] })

/-- The member `RecvA(message, callback)`. -/
def RecvA (P : Platform) (s : StreamSocketsChannel M) (message : Nat) (callback : Nat) :
    Outcome Bool × StreamSocketsChannel M :=
  match Ready s with
  | Outcome.fault f => (Outcome.fault f, s)
  | Outcome.returned false => (Outcome.returned false, s)
  | Outcome.returned true =>
    if s.async_recv_lock_ then (Outcome.fault Fault.blocked, s)
    else
      let s1 := { s with async_recv_lock_ := true,
                         trace := s.trace ++ [Event.lock],
                         async_recv_message_ptr_ := some message,
                         async_recv_callback_ := some callback,
                         async_recv_buffer_vec_ := some (new_buffer P.sizeof_size_t) }
      match s1.client_socket_ with
      | none => (Outcome.fault Fault.null_pointer, s1)
      | some _ =>
        (Outcome.returned true,
          { s1 with read_queue := s1.read_queue ++
              [{ size := P.sizeof_size_t, handler := ReadHandler.RecvASecondStage }] })

/-- The call `async_recv_lock_.unlock()`. -/
def unlock (s : StreamSocketsChannel M) : StreamSocketsChannel M :=
  { s with async_recv_lock_ := false, trace := s.trace ++ [Event.unlock] }

/-- The member `RecvASecondStage(error, bytes_read)`. -/
def RecvASecondStage (P : Platform) (s : StreamSocketsChannel M) (error : error_code)
    (bytes_read : Nat) : Outcome Unit × StreamSocketsChannel M :=
  if error.isSome || bytes_read != P.sizeof_size_t then (Outcome.returned (), unlock s)
  else
    match s.async_recv_buffer_vec_ with
    | none => (Outcome.fault Fault.null_pointer, s)
    | some vec =>
      let msg_size := bytes_to_size P vec
      if msg_size = 0 then (Outcome.fault Fault.check_failed, s)
      else if P.max_alloc < msg_size then (Outcome.fault Fault.bad_alloc, s)
      else
        let s1 := { s with async_recv_buffer_vec_ := some (new_buffer msg_size) }
        match s1.client_socket_ with
        | none => (Outcome.fault Fault.null_pointer, s1)
        | some _ =>
          (Outcome.returned (),
            { s1 with read_queue := s1.read_queue ++
                [{ size := msg_size, handler := ReadHandler.RecvAThirdStage }] })

/-- The member `RecvAThirdStage(error, bytes_read)`. -/
def RecvAThirdStage (env : Envelope M) (s : StreamSocketsChannel M) (error : error_code)
    (bytes_read : Nat) : Outcome Unit × StreamSocketsChannel M :=
  if error = some ErrorCode.eof then (Outcome.returned (), unlock s)
  else if error.isSome then (Outcome.returned (), unlock s)
  else if bytes_read = 0 then (Outcome.fault Fault.check_failed, s)
  else
    match s.async_recv_message_ptr_, s.async_recv_buffer_vec_ with
    | some message, some vec =>
      let p := env.Parse (s.heap message) vec bytes_read
      let s1 := unlock { s with heap := Function.update s.heap message p.2,
                                trace := s.trace ++ [Event.parse message vec bytes_read p.1] }
      match s1.async_recv_callback_ with
      | none => (Outcome.fault Fault.null_pointer, s1)
      | some callback =>
        (Outcome.returned (),
          { s1 with trace := s1.trace ++ [Event.recv_callback callback error bytes_read] })
    | _, _ => (Outcome.fault Fault.null_pointer, s)

/-! ## Completions delivered by the io_service -/

/-- The result of an asynchronous read: the error and the bytes put into the buffer. -/
structure Completion where
  error : error_code
  data : List Byte
deriving DecidableEq

/-- The io_service completes the oldest queued `async_read` with the given result: the bytes
are in the buffer and the bound handler runs with the error and the number of bytes. -/
def complete_read (P : Platform) (env : Envelope M) (s : StreamSocketsChannel M)
    (c : Completion) : Outcome Unit × StreamSocketsChannel M :=
  match s.read_queue with
  | [] => (Outcome.returned (), s)
  | op :: rest =>
    let s1 := { s with read_queue := rest,
                       async_recv_buffer_vec_ := s.async_recv_buffer_vec_.map (fun v => store v c.data) }
    match op.handler with
    | ReadHandler.RecvASecondStage => RecvASecondStage P s1 c.error c.data.length
    | ReadHandler.RecvAThirdStage => RecvAThirdStage env s1 c.error c.data.length

/-- The io_service performs the oldest queued `async_read` on the socket and completes it. -/
def run_read (P : Platform) (env : Envelope M) (s : StreamSocketsChannel M) :
    Outcome Unit × StreamSocketsChannel M :=
  match s.read_queue, s.client_socket_ with
  | op :: _, some k =>
    let r := k.read op.size
    complete_read P env (with_socket s r.2.2) { error := r.1, data := r.2.1 }
  | _, _ => (Outcome.returned (), s)

/-- The io_service performs the oldest queued `async_write` on the socket and calls its
callback with the error and the number of bytes transferred. -/
def run_write (s : StreamSocketsChannel M) : StreamSocketsChannel M :=
  match s.write_queue, s.client_socket_ with
  | op :: rest, some k =>
    let w := k.write op.data
    { s with write_queue := rest,
             client_socket_ := some w.2.2,
             trace := s.trace ++ [Event.send_callback op.callback w.1 w.2.1] }
  | _, _ => s

/-- An asynchronous receive from start to end: `RecvA`, then the completion `c2` of the read of
the size, then, when the second stage queued the read of the data, its completion `c3`. -/
def recv_async (P : Platform) (env : Envelope M) (s : StreamSocketsChannel M) (message : Nat)
    (callback : Nat) (c2 c3 : Completion) : Outcome Unit × StreamSocketsChannel M :=
  match RecvA P s message callback with
  | (Outcome.fault f, s1) => (Outcome.fault f, s1)
  | (Outcome.returned false, s1) => (Outcome.returned (), s1)
  | (Outcome.returned true, s1) =>
    match complete_read P env s1 c2 with
    | (Outcome.fault f, s2) => (Outcome.fault f, s2)
    | (Outcome.returned (), s2) =>
      match s2.read_queue with
      | [] => (Outcome.returned (), s2)
      | _ :: _ => complete_read P env s2 c3

/-- An asynchronous receive driven by the socket: `RecvA`, then the io_service performs the
queued reads until none is left (at most two). -/
def recv_async_socket (P : Platform) (env : Envelope M) (s : StreamSocketsChannel M)
    (message : Nat) (callback : Nat) : Outcome Unit × StreamSocketsChannel M :=
  match RecvA P s message callback with
  | (Outcome.fault f, s1) => (Outcome.fault f, s1)
  | (Outcome.returned false, s1) => (Outcome.returned (), s1)
  | (Outcome.returned true, s1) =>
    match run_read P env s1 with
    | (Outcome.fault f, s2) => (Outcome.fault f, s2)
    | (Outcome.returned (), s2) =>
      match s2.read_queue with
      | [] => (Outcome.returned (), s2)
      | _ :: _ => run_read P env s2

/-! ## Concrete hosts, envelopes and channels -/

/-- A little-endian host with an 8-byte `size_t` that can allocate buffers of up to 4 GiB. -/
def host64 : Platform :=
  { sizeof_size_t := 8, big_endian := false, max_alloc := 4294967296 }

/-- Envelopes whose payload is a byte string: it is serialized as it is, and parsing copies
`len` bytes of the buffer, except that a buffer starting with the byte 255 is refused. -/
def bytes_envelope : Envelope (List Byte) :=
  { size := fun m => m.length,
    Serialize := fun m cap => if m.length ≤ cap then some m else none,
    Parse := fun m buf len => if buf.head? = some 255 then (false, m) else (true, buf.take len) }

/-- A connected socket on which the peer has sent `inbound` and then closed. -/
def peer_socket (inbound : List Byte) : Socket :=
  { is_open := true,
    remote := some { address := "10.0.0.2", port := 9090 },
    shut_down := false,
    link := { inbound := inbound, inbound_end := ErrorCode.eof, outbound := [],
              send_room := none, send_error := ErrorCode.broken_pipe } }

/-- A connected socket on which the peer has sent `inbound` and keeps its end open: a read
that asks for more ends when the connection is reset. -/
def live_socket (inbound : List Byte) : Socket :=
  { peer_socket inbound with
    link := { (peer_socket inbound).link with inbound_end := ErrorCode.other 104 } }

/-- A channel made around an accepted connection whose peer has sent `inbound` and keeps its
end open. -/
def live_channel (inbound : List Byte) : StreamSocketsChannel (List Byte) :=
  StreamSocketsChannel.adopt { work := 0, threads := 1 } (live_socket inbound) (fun _ => [])

/-- A channel made around an accepted connection whose peer has sent `inbound` and then
closed. -/
def accepted_channel (inbound : List Byte) : StreamSocketsChannel (List Byte) :=
  StreamSocketsChannel.adopt { work := 0, threads := 1 } (peer_socket inbound) (fun _ => [])

/-- A socket on which a read takes bytes from the stream: open, connected, not shut down. -/
def Socket.usable (k : Socket) : Bool :=
  k.is_open && k.remote.isSome && !k.shut_down

/-- The call `Close()` made `n` times in a row, as long as it returns. -/
def Close_times : Nat → StreamSocketsChannel M → Outcome Unit × StreamSocketsChannel M
  | 0, s => (Outcome.returned (), s)
  | n + 1, s =>
    match Close s with
    | (Outcome.returned (), s1) => Close_times n s1
    | (Outcome.fault f, s1) => (Outcome.fault f, s1)

/-- The error of a connect attempt made on a socket that was just closed, as in the loop of
`Establish`. -/
def attempt_error (c : Candidate) : error_code :=
  (Socket.fresh.connect c).1

/-- A network in which every name resolves to one address that refuses connections. -/
def refusing_network : Network :=
  { GetHostnameFromURI := fun uri => uri,
    GetPortFromURI := fun _ => "1",
    resolve := fun _ _ => Except.ok
      [{ endpoint := { address := "192.0.2.1", port := 1 },
         open_error := none,
         result := ConnectResult.refused (ErrorCode.other 111) }] }

/-- A network in which every name resolves to two addresses: the first refuses connections, the
second accepts them. -/
def second_accepts_network : Network :=
  { GetHostnameFromURI := fun uri => uri,
    GetPortFromURI := fun _ => "1",
    resolve := fun _ _ => Except.ok
      [{ endpoint := { address := "192.0.2.1", port := 1 },
         open_error := none,
         result := ConnectResult.refused (ErrorCode.other 111) },
       { endpoint := { address := "192.0.2.2", port := 1 },
         open_error := none,
         result := ConnectResult.established (peer_socket []).link }] }

/-- An accepted channel whose socket has since been closed by the connection object that
shares it: the ready flag is still set. -/
def stale_channel : StreamSocketsChannel (List Byte) :=
  { accepted_channel [] with client_socket_ := some (peer_socket []).close }

/-- The length the second stage decodes from the size buffer when the read of the size has
completed with `c2`. -/
def decoded_size (P : Platform) (c2 : Completion) : Nat :=
  bytes_to_size P (store (new_buffer P.sizeof_size_t) c2.data)

/-- Whether the mutex is held after the events, given whether it was held before them. -/
def held_after : Bool → List Event → Bool
  | held, [] => held
  | _, Event.lock :: es => held_after true es
  | _, Event.unlock :: es => held_after false es
  | held, _ :: es => held_after held es

/-- The lock discipline of the asynchronous receive, checked along a sequence of events that
starts with the mutex held or not: the mutex is taken only when it is free and released only
when it is held, `Parse` is called only while it is held, and the receive callback is called
only while it is free. -/
def disciplined : Bool → List Event → Bool
  | _, [] => true
  | held, Event.lock :: es => !held && disciplined true es
  | held, Event.unlock :: es => held && disciplined false es
  | held, Event.parse _ _ _ _ :: es => held && disciplined held es
  | held, Event.recv_callback _ _ _ :: es => !held && disciplined held es
  | held, _ :: es => disciplined held es

/-! ## Facts about buffers and the size preamble -/

theorem le_bytes_length (w n : Nat) : (le_bytes w n).length = w := by
  induction w generalizing n with
  | zero => rfl
  | succ w ih => simp [le_bytes, ih]

theorem le_value_le_bytes (w n : Nat) : le_value (le_bytes w n) = n % 256 ^ w := by
  induction w generalizing n with
  | zero => simp [le_bytes, le_value, Nat.mod_one]
  | succ w ih =>
    simp only [le_bytes, le_value, ih, Nat.mod_mod]
    rw [pow_succ, mul_comm (256 ^ w) 256, Nat.mod_mul]

theorem size_to_bytes_length (P : Platform) (n : Nat) :
    (size_to_bytes P n).length = P.sizeof_size_t := by
  unfold size_to_bytes
  split <;> simp [le_bytes_length]

theorem bytes_to_size_size_to_bytes (P : Platform) (n : Nat) :
    bytes_to_size P (size_to_bytes P n) = to_size_t P n := by
  have hlen := size_to_bytes_length P n
  unfold bytes_to_size to_size_t
  rw [List.take_of_length_le (le_of_eq hlen)]
  unfold size_to_bytes
  split <;> simp [le_value_le_bytes]

theorem to_size_t_idem (P : Platform) (n : Nat) : to_size_t P (to_size_t P n) = to_size_t P n := by
  simp [to_size_t]

theorem to_size_t_of_lt (P : Platform) (n : Nat) (h : n < 256 ^ P.sizeof_size_t) :
    to_size_t P n = n := by
  simp [to_size_t, Nat.mod_eq_of_lt h]

theorem new_buffer_length (n : Nat) : (new_buffer n).length = n := by
  simp [new_buffer]

theorem store_length (buf data : List Byte) : (store buf data).length = buf.length := by
  simp only [store, List.length_append, List.length_take, List.length_drop]
  omega

theorem store_full (buf data : List Byte) (h : data.length = buf.length) :
    store buf data = data := by
  simp [store, ← h]

theorem serialized_length (P : Platform) (env : Envelope M) (message : M) (buf : List Byte)
    (h : serialized P env message = some buf) :
    buf.length = to_size_t P (env.size message) := by
  unfold serialized at h
  split at h
  · cases h
  · cases h
    rw [store_length, new_buffer_length]

theorem serialized_exact (P : Platform) (env : Envelope M) (message : M) (data : List Byte)
    (h : env.Serialize message (to_size_t P (env.size message)) = some data)
    (hlen : data.length = to_size_t P (env.size message)) :
    serialized P env message = some data := by
  unfold serialized
  rw [h]
  simp only
  rw [store_full _ _ (by rw [new_buffer_length, hlen])]

/-! ## Facts about the socket -/

theorem write_ok (k : Socket) (data : List Byte) (h : (k.write data).1 = none) :
    (k.write data).2.1 = data.length ∧
    (k.write data).2.2.link.outbound = k.link.outbound ++ data ∧
    (k.write data).2.2.link.inbound = k.link.inbound ∧
    (k.write data).2.2.is_open = k.is_open := by
  unfold Socket.write at h ⊢
  cases hd : data with
  | nil => simp
  | cons b bs =>
    rw [hd] at h
    simp only [List.isEmpty_cons, Bool.false_eq_true, if_false] at h ⊢
    split at h
    · cases h
    · split at h
      · cases h
      · split at h
        · cases h
        · split at h
          · rename_i hroom
            simp [hroom, *]
          · rename_i room hroom
            split at h
            · rename_i hle
              simp only [List.length_cons] at hle
              simp [hroom, hle, *]
            · cases h

theorem read_enough (k : Socket) (n : Nat) (hu : k.usable = true) (hn : n ≤ k.link.inbound.length) :
    k.read n = (none, k.link.inbound.take n,
      { k with link := { k.link with inbound := k.link.inbound.drop n } }) := by
  simp only [Socket.usable, Bool.and_eq_true, Bool.not_eq_true', Option.isSome_iff_exists] at hu
  obtain ⟨⟨ho, ep, hep⟩, hs⟩ := hu
  unfold Socket.read
  by_cases h0 : n = 0
  · subst h0
    cases k
    simp
  · simp [h0, ho, hep, hs, hn]

/-- What `SendS` does once the message is serialized and the socket is there. -/
theorem SendS_eq (P : Platform) (env : Envelope M) (s : StreamSocketsChannel M) (message : M)
    (buf : List Byte) (k : Socket)
    (halloc : ¬P.max_alloc < to_size_t P (env.size message))
    (hbuf : serialized P env message = some buf)
    (hk : s.client_socket_ = some k) :
    SendS P env s message =
      if (k.write (size_to_bytes P (to_size_t P (env.size message)))).1.isSome ||
          (k.write (size_to_bytes P (to_size_t P (env.size message)))).2.1 != P.sizeof_size_t then
        (Outcome.returned false,
          with_socket s (k.write (size_to_bytes P (to_size_t P (env.size message)))).2.2)
      else if ((k.write (size_to_bytes P (to_size_t P (env.size message)))).2.2.write
            (buf.take (to_size_t P (env.size message)))).1.isSome ||
          ((k.write (size_to_bytes P (to_size_t P (env.size message)))).2.2.write
            (buf.take (to_size_t P (env.size message)))).2.1 != to_size_t P (env.size message) then
        (Outcome.returned false,
          with_socket s ((k.write (size_to_bytes P (to_size_t P (env.size message)))).2.2.write
            (buf.take (to_size_t P (env.size message)))).2.2)
      else
        (Outcome.returned true,
          with_socket s ((k.write (size_to_bytes P (to_size_t P (env.size message)))).2.2.write
            (buf.take (to_size_t P (env.size message)))).2.2) := by
  unfold SendS
  simp only [halloc, if_false, hbuf, hk]

theorem SendS_true (P : Platform) (env : Envelope M) (s s1 : StreamSocketsChannel M) (message : M)
    (h : SendS P env s message = (Outcome.returned true, s1)) :
    ∃ k k1 buf, s.client_socket_ = some k ∧ serialized P env message = some buf ∧
      s1 = with_socket s k1 ∧
      k1.link.outbound =
        k.link.outbound ++ (size_to_bytes P (to_size_t P (env.size message)) ++ buf) ∧
      k1.link.inbound = k.link.inbound ∧ k1.is_open = k.is_open ∧
      to_size_t P (env.size message) ≤ P.max_alloc := by
  by_cases halloc : P.max_alloc < to_size_t P (env.size message)
  · simp [SendS, halloc] at h
  cases hbuf : serialized P env message with
  | none => simp [SendS, halloc, hbuf] at h
  | some buf =>
    cases hk : s.client_socket_ with
    | none => simp [SendS, halloc, hbuf, hk] at h
    | some k =>
      rw [SendS_eq P env s message buf k halloc hbuf hk] at h
      have hlen := serialized_length P env message buf hbuf
      split at h
      · simp at h
      · rename_i h1
        split at h
        · simp at h
        · rename_i h2
          simp only [Bool.or_eq_true, not_or, Option.isSome_iff_exists, not_exists] at h1 h2
          have e1 : (k.write (size_to_bytes P (to_size_t P (env.size message)))).1 = none := by
            cases he : (k.write (size_to_bytes P (to_size_t P (env.size message)))).1 with
            | none => rfl
            | some e => exact absurd he (h1.1 e)
          have e2 : ((k.write (size_to_bytes P (to_size_t P (env.size message)))).2.2.write
              (buf.take (to_size_t P (env.size message)))).1 = none := by
            cases he : ((k.write (size_to_bytes P (to_size_t P (env.size message)))).2.2.write
              (buf.take (to_size_t P (env.size message)))).1 with
            | none => rfl
            | some e => exact absurd he (h2.1 e)
          obtain ⟨-, o1, i1, p1⟩ := write_ok _ _ e1
          obtain ⟨-, o2, i2, p2⟩ := write_ok _ _ e2
          refine ⟨k, _, buf, rfl, rfl, (Prod.mk.inj h).2.symm, ?_, ?_, ?_, Nat.le_of_not_lt halloc⟩
          · rw [o2, o1, List.take_of_length_le (le_of_eq hlen), List.append_assoc]
          · rw [i2, i1]
          · rw [p2, p1]

theorem SendA_true (P : Platform) (env : Envelope M) (s s1 : StreamSocketsChannel M) (message : M)
    (callback : Nat) (h : SendA P env s message callback = (Outcome.returned true, s1)) :
    ∃ buf, serialized P env message = some buf ∧
      s1 = { s with write_queue := s.write_queue ++
        [{ data := size_to_bytes P (to_size_t P (env.size message)), callback := callback },
         { data := buf, callback := callback }] } := by
  by_cases halloc : P.max_alloc < to_size_t P (env.size message)
  · simp [SendA, halloc] at h
  cases hbuf : serialized P env message with
  | none => simp [SendA, halloc, hbuf] at h
  | some buf =>
    cases hk : s.client_socket_ with
    | none => simp [SendA, halloc, hbuf, hk] at h
    | some k =>
      have hlen := serialized_length P env message buf hbuf
      simp only [SendA, halloc, if_false, hbuf, hk, List.take_of_length_le (le_of_eq hlen)] at h
      exact ⟨buf, rfl, (Prod.mk.inj h).2.symm⟩

/-- What `RecvS` does on a ready channel whose socket holds a whole frame. -/
theorem RecvS_frame (P : Platform) (env : Envelope M) (b : StreamSocketsChannel M) (message : Nat)
    (k : Socket) (n : Nat) (payload rest : List Byte)
    (hready : Ready b = Outcome.returned true) (hk : b.client_socket_ = some k)
    (hu : k.usable = true) (hn : 0 < n) (hfit : n < 256 ^ P.sizeof_size_t)
    (hmax : n ≤ P.max_alloc) (hlen : payload.length = n)
    (hin : k.link.inbound = size_to_bytes P n ++ (payload ++ rest)) :
    RecvS P env b message =
      (Outcome.returned (env.Parse (b.heap message) payload n).1,
        { with_socket b { k with link := { k.link with inbound := rest } } with
          heap := Function.update b.heap message (env.Parse (b.heap message) payload n).2,
          trace := b.trace ++ [Event.parse message payload n (env.Parse (b.heap message) payload n).1] }) := by
  have hW := size_to_bytes_length P n
  have h1 : k.read P.sizeof_size_t = (none, size_to_bytes P n,
      { k with link := { k.link with inbound := payload ++ rest } }) := by
    rw [read_enough k _ hu (by rw [hin, List.length_append]; omega), hin,
      List.take_left' hW, List.drop_left' hW]
  have hu2 : Socket.usable { k with link := { k.link with inbound := payload ++ rest } } = true := hu
  have h2 : Socket.read { k with link := { k.link with inbound := payload ++ rest } } n =
      (none, payload, { k with link := { k.link with inbound := rest } }) := by
    rw [read_enough _ _ hu2 (by simp only [List.length_append]; omega)]
    simp only [List.take_left' hlen, List.drop_left' hlen]
  have hdec : bytes_to_size P (store (new_buffer P.sizeof_size_t) (size_to_bytes P n)) = n := by
    rw [store_full _ _ (by rw [hW, new_buffer_length]), bytes_to_size_size_to_bytes,
      to_size_t_of_lt P n hfit]
  have hst : store (new_buffer n) payload = payload :=
    store_full _ _ (by rw [hlen, new_buffer_length])
  have hn0 : n ≠ 0 := by omega
  have hmax1 : ¬P.max_alloc < n := by omega
  unfold RecvS
  simp only [hready, hk, h1, hW, hdec, h2, hst, hlen, hn0, hmax1, with_socket]
  simp

/-! ## Wire framing -/

/-- C2. Wire framing: when `SendS(E)` returns true, the bytes it has handed to the socket are
the `sizeof(size_t)` bytes of the object representation of `E.size()` followed by the buffer
that `E.Serialize` filled, which is `E.size()` bytes long, and nothing else; `SendA(E, cb)`
queues one write of the first and one write of the second, in this order.  The total length
is `sizeof(size_t) + E.size()`.  When `Serialize` writes `E.size()` bytes, as its contract
says, the buffer is what it wrote.  (`E.size()` is a `size_t`: it is below `256 ^ sizeof(size_t)`.) -/
theorem wire_framing (P : Platform) (env : Envelope M) (s : StreamSocketsChannel M) (E : M)
    (cb : Nat) (hfit : env.size E < 256 ^ P.sizeof_size_t) :
    ∃ buf, buf.length = env.size E ∧
      (size_to_bytes P (env.size E) ++ buf).length = P.sizeof_size_t + env.size E ∧
      (∀ data, env.Serialize E (env.size E) = some data → data.length = env.size E → buf = data) ∧
      (∀ s1, SendS P env s E = (Outcome.returned true, s1) →
        serialized P env E = some buf ∧
        ∃ k k1, s.client_socket_ = some k ∧ s1.client_socket_ = some k1 ∧
          k1.link.outbound = k.link.outbound ++ (size_to_bytes P (env.size E) ++ buf)) ∧
      (∀ s1, SendA P env s E cb = (Outcome.returned true, s1) →
        serialized P env E = some buf ∧
        s1.write_queue = s.write_queue ++
          [{ data := size_to_bytes P (env.size E), callback := cb },
           { data := buf, callback := cb }]) := by
  have hsz := to_size_t_of_lt P (env.size E) hfit
  cases hbuf : serialized P env E with
  | none =>
    refine ⟨new_buffer (env.size E), new_buffer_length _, ?_, ?_, ?_, ?_⟩
    · rw [List.length_append, size_to_bytes_length, new_buffer_length]
    · intro data hdata hlen
      rw [← hsz] at hdata hlen
      rw [serialized_exact P env E data hdata hlen] at hbuf
      cases hbuf
    · intro s1 h
      obtain ⟨-, -, buf1, -, hb1, -⟩ := SendS_true P env s s1 E h
      rw [hbuf] at hb1
      cases hb1
    · intro s1 h
      obtain ⟨buf1, hb1, -⟩ := SendA_true P env s s1 E cb h
      rw [hbuf] at hb1
      cases hb1
  | some buf =>
    have hlen := serialized_length P env E buf hbuf
    rw [hsz] at hlen
    refine ⟨buf, hlen, ?_, ?_, ?_, ?_⟩
    · rw [List.length_append, size_to_bytes_length, hlen]
    · intro data hdata hdlen
      rw [← hsz] at hdata hdlen
      rw [serialized_exact P env E data hdata hdlen] at hbuf
      cases hbuf
      rfl
    · intro s1 h
      obtain ⟨k, k1, buf1, hk, hb1, hs1, hout, -, -, -⟩ := SendS_true P env s s1 E h
      rw [hbuf] at hb1
      cases hb1
      rw [hsz] at hout
      exact ⟨rfl, k, k1, hk, by rw [hs1]; rfl, hout⟩
    · intro s1 h
      obtain ⟨buf1, hb1, hs1⟩ := SendA_true P env s s1 E cb h
      rw [hbuf] at hb1
      cases hb1
      rw [hsz] at hs1
      exact ⟨rfl, by rw [hs1]⟩

/-- On a 64-bit little-endian host, sending the three bytes 1, 2, 3 puts
3 0 0 0 0 0 0 0 1 2 3 on the wire. -/
theorem wire_framing_witness :
    ∃ k1, (SendS host64 bytes_envelope (accepted_channel []) [1, 2, 3]).2.client_socket_ = some k1 ∧
      k1.link.outbound = [3, 0, 0, 0, 0, 0, 0, 0, 1, 2, 3] := by
  obtain ⟨buf, -, -, -, hS, -⟩ :=
    wire_framing host64 bytes_envelope (accepted_channel []) [1, 2, 3] 7 (by decide)
  obtain ⟨hbuf, k, k1, hk, hk1, hout⟩ := hS _ (Prod.ext (by decide) rfl)
  have e : serialized host64 bytes_envelope [1, 2, 3] = some [1, 2, 3] := by decide
  rw [e] at hbuf
  cases hbuf
  have ek : (accepted_channel []).client_socket_ = some (peer_socket []) := rfl
  rw [ek] at hk
  cases hk
  exact ⟨k1, hk1, hout⟩

/-! ## Round trip -/

/-- C1. Round trip over one channel: let `E` be an envelope with `size() > 0` (a `size_t`), let
`SendS(E)` return true on one end, and let the bytes it wrote be the next bytes on the socket
of a ready peer channel.  Then `RecvS` on the peer takes exactly `sizeof(size_t) + E.size()`
bytes from the socket, calls `Parse` once, on the buffer that `E.Serialize` filled and with
`len = E.size()`, and returns what `Parse` returns; so it returns true and leaves `E` in the
destination whenever `Parse` does. -/
theorem round_trip (P : Platform) (env : Envelope M) (a a1 b : StreamSocketsChannel M) (E : M)
    (message : Nat) (ka ka1 kb : Socket) (rest : List Byte)
    (hsize : 0 < env.size E) (hfit : env.size E < 256 ^ P.sizeof_size_t)
    (hsend : SendS P env a E = (Outcome.returned true, a1))
    (hka : a.client_socket_ = some ka) (hka1 : a1.client_socket_ = some ka1)
    (hready : Ready b = Outcome.returned true) (hkb : b.client_socket_ = some kb)
    (hu : kb.usable = true)
    (hnext : kb.link.inbound = ka1.link.outbound.drop ka.link.outbound.length ++ rest) :
    ∃ buf kb1, serialized P env E = some buf ∧ buf.length = env.size E ∧
      (RecvS P env b message).1 =
        Outcome.returned (env.Parse (b.heap message) buf (env.size E)).1 ∧
      (RecvS P env b message).2.heap message = (env.Parse (b.heap message) buf (env.size E)).2 ∧
      (RecvS P env b message).2.trace =
        b.trace ++ [Event.parse message buf (env.size E)
          (env.Parse (b.heap message) buf (env.size E)).1] ∧
      (RecvS P env b message).2.client_socket_ = some kb1 ∧
      kb1.link.inbound = rest ∧
      kb.link.inbound.length = P.sizeof_size_t + env.size E + kb1.link.inbound.length ∧
      (env.Parse (b.heap message) buf (env.size E) = (true, E) →
        (RecvS P env b message).1 = Outcome.returned true ∧
        (RecvS P env b message).2.heap message = E) := by
  have hsz := to_size_t_of_lt P (env.size E) hfit
  obtain ⟨k, k1, buf, hk, hbuf, hs1, hout, -, -, hmax⟩ := SendS_true P env a a1 E hsend
  rw [hka] at hk
  cases hk
  rw [hs1] at hka1
  cases hka1
  have hlen := serialized_length P env E buf hbuf
  rw [hsz] at hlen hout hmax
  rw [hout, List.drop_left, List.append_assoc] at hnext
  have hR :=
    RecvS_frame P env b message kb (env.size E) buf rest hready hkb hu hsize hfit hmax hlen hnext
  refine ⟨buf, { kb with link := { kb.link with inbound := rest } }, hbuf, hlen, ?_, ?_, ?_, ?_,
    rfl, ?_, ?_⟩
  · rw [hR]
  · rw [hR]
    simp
  · rw [hR]
  · rw [hR]
    rfl
  · rw [hnext]
    simp only [List.length_append, size_to_bytes_length, hlen]
    omega
  · intro hp
    rw [hR]
    simp [hp]

/-- The three bytes 1, 2, 3 sent on one end arrive on the other. -/
theorem round_trip_witness :
    (RecvS host64 bytes_envelope (accepted_channel [3, 0, 0, 0, 0, 0, 0, 0, 1, 2, 3]) 0).1 =
        Outcome.returned true ∧
      (RecvS host64 bytes_envelope (accepted_channel [3, 0, 0, 0, 0, 0, 0, 0, 1, 2, 3]) 0).2.heap 0 =
        [1, 2, 3] := by
  obtain ⟨buf, kb1, hbuf, -, -, -, -, -, -, -, h⟩ :=
    round_trip host64 bytes_envelope (accepted_channel [])
      (SendS host64 bytes_envelope (accepted_channel []) [1, 2, 3]).2
      (accepted_channel [3, 0, 0, 0, 0, 0, 0, 0, 1, 2, 3]) [1, 2, 3] 0
      (peer_socket [])
      { peer_socket [] with
        link := { (peer_socket []).link with outbound := [3, 0, 0, 0, 0, 0, 0, 0, 1, 2, 3] } }
      (peer_socket [3, 0, 0, 0, 0, 0, 0, 0, 1, 2, 3]) []
      (by decide) (by decide) (Prod.ext (by decide) rfl) rfl (by decide) (by decide) rfl
      (by decide) (by decide)
  have e : serialized host64 bytes_envelope [1, 2, 3] = some [1, 2, 3] := by decide
  rw [e] at hbuf
  cases hbuf
  exact h (by decide)

/-! ## Close -/

theorem Close_returned (s s1 : StreamSocketsChannel M) (h : Close s = (Outcome.returned (), s1)) :
    ∃ k, s.client_socket_ = some k ∧ k.is_open = true ∧ k.remote.isSome = true ∧
      s1 = { s with client_socket_ := some { k with shut_down := true }, channel_ready_ := false } := by
  unfold Close at h
  cases hk : s.client_socket_ with
  | none => simp [hk] at h
  | some k =>
    simp only [hk] at h
    unfold Socket.shutdown at h
    by_cases ho : k.is_open = true
    · cases hr : k.remote with
      | none => simp [ho, hr] at h
      | some ep =>
        by_cases he : k.ended = true
        · simp [ho, hr, he] at h
        · simp only [ho, hr, he, Bool.not_true, Bool.false_eq_true, if_false,
            Option.isNone_some] at h
          refine ⟨k, rfl, ho, by rw [hr]; rfl, ?_⟩
          rw [ho, hr]
          exact (Prod.mk.inj h).2.symm
    · simp [ho] at h

/-- A further `Close()` on a channel that `Close()` has left: it changes nothing, and it returns
or throws according to whether the peer keeps its end open. -/
theorem Close_again (s : StreamSocketsChannel M) (k : Socket) (ho : k.is_open = true)
    (hr : k.remote.isSome = true) :
    Close { s with client_socket_ := some { k with shut_down := true }, channel_ready_ := false } =
      (if k.link.inbound_end = ErrorCode.eof then
          Outcome.fault (Fault.system_error ErrorCode.not_connected)
        else Outcome.returned (),
        { s with client_socket_ := some { k with shut_down := true }, channel_ready_ := false }) := by
  obtain ⟨ep, hep⟩ := Option.isSome_iff_exists.mp hr
  by_cases he : k.link.inbound_end = ErrorCode.eof
  · simp [Close, Socket.shutdown, Socket.ended, ho, hep, he]
  · simp [Close, Socket.shutdown, Socket.ended, ho, hep, he]

theorem Close_times_fixed (s1 : StreamSocketsChannel M) (h : (Close s1).2 = s1) (n : Nat) :
    (Close_times n s1).2 = s1 := by
  induction n with
  | zero => rfl
  | succ n ih =>
    rw [Close_times]
    cases hc : Close s1 with
    | mk o s2 =>
      rw [hc] at h
      cases h
      cases o with
      | returned u =>
        cases u
        exact ih
      | fault f => rfl

/-- C4, as the code has it: when `Close()` has returned, `Ready()` is false, and any number of
further calls of `Close()` leave the channel exactly as the first call left it, with `Ready()`
false.  A further call returns as long as the peer keeps its end of the connection open, and
then any number of calls is one call; once the peer has ended its stream the connection is
over and a further call does not return: the `shutdown` in it throws `not_connected`. -/
theorem close_repeated (s s1 : StreamSocketsChannel M)
    (h : Close s = (Outcome.returned (), s1)) :
    Ready s1 = Outcome.returned false ∧
      (Close s1).2 = s1 ∧
      (∀ n, (Close_times n s1).2 = s1 ∧ Ready (Close_times n s1).2 = Outcome.returned false) ∧
      ∃ k, s1.client_socket_ = some k ∧
        (k.link.inbound_end ≠ ErrorCode.eof →
          Close s1 = (Outcome.returned (), s1) ∧
          ∀ n, Close_times (n + 1) s = (Outcome.returned (), s1)) ∧
        (k.link.inbound_end = ErrorCode.eof →
          Close s1 = (Outcome.fault (Fault.system_error ErrorCode.not_connected), s1)) := by
  obtain ⟨k, hk, ho, hr, hs1⟩ := Close_returned s s1 h
  have hA := Close_again s k ho hr
  rw [← hs1] at hA
  have hready : Ready s1 = Outcome.returned false := by
    rw [hs1]
    simp [Ready]
  have hfix : (Close s1).2 = s1 := by rw [hA]
  refine ⟨hready, hfix, ?_, { k with shut_down := true }, by rw [hs1], ?_, ?_⟩
  · intro n
    rw [Close_times_fixed s1 hfix n]
    exact ⟨rfl, hready⟩
  · intro hne
    have hne1 : k.link.inbound_end ≠ ErrorCode.eof := hne
    have h2 : Close s1 = (Outcome.returned (), s1) := by
      rw [hA, if_neg hne1]
    have hall : ∀ j, Close_times j s1 = (Outcome.returned (), s1) := by
      intro j
      induction j with
      | zero => rfl
      | succ j ih => rw [Close_times, h2]; exact ih
    refine ⟨h2, ?_⟩
    intro n
    rw [Close_times, h]
    exact hall n
  · intro he
    have he1 : k.link.inbound_end = ErrorCode.eof := he
    rw [hA, if_pos he1]

/-- On an accepted channel whose peer keeps its end open, closing three times is closing
once. -/
theorem close_repeated_witness :
    (Close_times 3 (live_channel [])).1 = Outcome.returned () ∧
      (Close_times 3 (live_channel [])).2.client_socket_ =
        (Close (live_channel [])).2.client_socket_ ∧
      Ready (Close (live_channel [])).2 = Outcome.returned false := by
  obtain ⟨h1, -, -, k, hk, h2, -⟩ :=
    close_repeated (live_channel []) (Close (live_channel [])).2 (Prod.ext (by decide) rfl)
  have hk1 : (Close (live_channel [])).2.client_socket_ =
      some { live_socket [] with shut_down := true } := by decide
  rw [hk1] at hk
  cases hk
  obtain ⟨-, h3⟩ := h2 (by decide)
  exact ⟨by rw [h3 2], by rw [h3 2], h1⟩

/-- C4, as stated, fails: on an accepted channel whose peer has ended its stream the first
`Close()` returns and the second one does not: its `shutdown` throws `not_connected`. -/
theorem close_twice_counterexample :
    (Close (accepted_channel [])).1 = Outcome.returned () ∧
      (Close (Close (accepted_channel [])).2).1 =
        Outcome.fault (Fault.system_error ErrorCode.not_connected) ∧
      (Close_times 2 (accepted_channel [])).1 ≠ Outcome.returned () := by
  decide

/-! ## The work object -/

/-- C8, as the code has it: `Close()` does not touch the work object.  A channel that holds
one still holds it when `Close()` has returned, and the io_service counts as many work objects
as before; the work object goes away when the channel is destroyed. -/
theorem close_keeps_work (s s1 : StreamSocketsChannel M) (hw : s.io_service_work_ = true)
    (h : Close s = (Outcome.returned (), s1)) :
    s1.io_service_work_ = true ∧
      s1.client_io_service_ = s.client_io_service_ ∧
      (destroy s1).1 = Outcome.returned () ∧
      (destroy s1).2.io_service_work_ = false ∧
      (destroy s1).2.client_io_service_.work = s.client_io_service_.work - 1 := by
  obtain ⟨k, hk, ho, hr, hs1⟩ := Close_returned s s1 h
  subst hs1
  simp [destroy, Ready, release_members, hw]

/-- An accepted channel still holds its work object after `Close()`, and loses it when it is
destroyed. -/
theorem close_keeps_work_witness :
    (Close (accepted_channel [])).2.io_service_work_ = true ∧
      (destroy (Close (accepted_channel [])).2).2.io_service_work_ = false := by
  obtain ⟨h1, -, -, h4, -⟩ :=
    close_keeps_work (accepted_channel []) (Close (accepted_channel [])).2 (by decide)
      (Prod.ext (by decide) rfl)
  exact ⟨h1, h4⟩

/-- C8, as stated, fails: an accepted channel holds a work object, `Close()` returns, and the
channel still holds the work object, which the io_service still counts. -/
theorem close_releases_work_counterexample :
    (accepted_channel []).io_service_work_ = true ∧
      (Close (accepted_channel [])).1 = Outcome.returned () ∧
      (Close (accepted_channel [])).2.io_service_work_ = true ∧
      (Close (accepted_channel [])).2.client_io_service_.work = 1 := by
  decide

/-! ## Establish -/

theorem close_eq_fresh (k : Socket) : k.close = Socket.fresh := rfl

theorem connect_loop_none (cands : List Candidate) (k : Socket) :
    connect_loop none cands k = (none, k, []) := by
  cases cands <;> rfl

theorem connect_loop_cons (e : ErrorCode) (c : Candidate) (rest : List Candidate) (k : Socket) :
    connect_loop (some e) (c :: rest) k =
      ((connect_loop (attempt_error c) rest (Socket.fresh.connect c).2).1,
       (connect_loop (attempt_error c) rest (Socket.fresh.connect c).2).2.1,
       c.endpoint :: (connect_loop (attempt_error c) rest (Socket.fresh.connect c).2).2.2) := rfl

theorem attempt_error_none (c : Candidate) (h : attempt_error c = none) :
    (Socket.fresh.connect c).2.is_open = true ∧
      (Socket.fresh.connect c).2.remote = some c.endpoint := by
  unfold attempt_error at h
  unfold Socket.connect at h ⊢
  split at h
  · rename_i hc
    simp only [Bool.and_eq_true, Option.isSome_iff_exists] at hc
    obtain ⟨-, e, he⟩ := hc
    simp only at h
    rw [he] at h
    cases h
  · cases hres : c.result with
    | refused e => simp [hres] at h
    | established l =>
      rename_i hc
      simp [hc]

/-- When every candidate fails, the loop tries them all and ends with the error of the last
one (with the initial error when there is none). -/
theorem connect_loop_all_fail (cands : List Candidate) (e : ErrorCode) (k : Socket)
    (hall : ∀ x ∈ cands, attempt_error x ≠ none) :
    (connect_loop (some e) cands k).1 =
        (match cands.getLast? with
         | none => some e
         | some c => attempt_error c) ∧
      (connect_loop (some e) cands k).1 ≠ none ∧
      (connect_loop (some e) cands k).2.2 = cands.map Candidate.endpoint := by
  induction cands generalizing e k with
  | nil => simp [connect_loop]
  | cons c rest ih =>
    rw [connect_loop_cons]
    have hc := hall c (List.mem_cons_self _ _)
    cases he : attempt_error c with
    | none => exact absurd he hc
    | some e1 =>
      obtain ⟨h1, h2, h3⟩ := ih e1 (Socket.fresh.connect c).2
        (fun x hx => hall x (List.mem_cons_of_mem _ hx))
      refine ⟨?_, h2, ?_⟩
      · simp only [h1]
        cases rest with
        | nil => simp [he]
        | cons d rest1 =>
          rw [List.getLast?_cons_cons]
          cases hl : (d :: rest1).getLast? with
          | none => simp at hl
          | some x => rfl
      · simp [h3]

/-- The loop stops at the first candidate whose connect succeeds. -/
theorem connect_loop_first_success (pre : List Candidate) (c : Candidate) (post : List Candidate)
    (e : ErrorCode) (k : Socket) (hpre : ∀ x ∈ pre, attempt_error x ≠ none)
    (hc : attempt_error c = none) :
    connect_loop (some e) (pre ++ c :: post) k =
      (none, (Socket.fresh.connect c).2, (pre ++ [c]).map Candidate.endpoint) := by
  induction pre generalizing e k with
  | nil =>
    rw [List.nil_append, connect_loop_cons, hc, connect_loop_none]
    rfl
  | cons d pre1 ih =>
    rw [List.cons_append, connect_loop_cons]
    have hd := hpre d (List.mem_cons_self _ _)
    cases he : attempt_error d with
    | none => exact absurd he hd
    | some e1 =>
      rw [ih e1 _ (fun x hx => hpre x (List.mem_cons_of_mem _ hx))]
      rfl

/-- Some candidate succeeds exactly when there is a first one that does. -/
theorem exists_first_success (cands : List Candidate)
    (h : ∃ c ∈ cands, attempt_error c = none) :
    ∃ pre c post, cands = pre ++ c :: post ∧ (∀ x ∈ pre, attempt_error x ≠ none) ∧
      attempt_error c = none := by
  induction cands with
  | nil => simp at h
  | cons d rest ih =>
    by_cases hd : attempt_error d = none
    · exact ⟨[], d, rest, rfl, by simp, hd⟩
    · obtain ⟨c, hmem, hc⟩ := h
      have hrest : ∃ c ∈ rest, attempt_error c = none := by
        rcases List.mem_cons.mp hmem with rfl | hm
        · exact absurd hc hd
        · exact ⟨c, hm, hc⟩
      obtain ⟨pre, c1, post, hsplit, hpre, hc1⟩ := ih hrest
      refine ⟨d :: pre, c1, post, by rw [hsplit]; rfl, ?_, hc1⟩
      intro x hx
      rcases List.mem_cons.mp hx with rfl | hm
      · exact hd
      · exact hpre x hm

theorem Establish_teardown_returned (s s1 : StreamSocketsChannel M)
    (h : Establish_teardown s = (Outcome.returned (), s1)) :
    s1.trace = s.trace ∧ s1.io_service_work_ = s.io_service_work_ ∧
      s1.client_io_service_ = s.client_io_service_ ∧
      ((s.channel_ready_ = true → ∃ k, s.client_socket_ = some k ∧ k.is_open = true) →
        s1.channel_ready_ = false) := by
  unfold Establish_teardown at h
  cases hk : s.client_socket_ with
  | none =>
    simp only [hk] at h
    cases h
    refine ⟨rfl, rfl, rfl, ?_⟩
    intro hinv
    cases hr : s.channel_ready_ with
    | false => rfl
    | true =>
      obtain ⟨k, hk1, -⟩ := hinv hr
      cases hk1
  | some k =>
    simp only [hk] at h
    by_cases ho : k.is_open = true
    · simp only [ho, if_true] at h
      cases hsd : k.shutdown with
      | error e => simp [hsd] at h
      | ok k1 =>
        simp only [hsd] at h
        cases h
        exact ⟨rfl, rfl, rfl, fun _ => rfl⟩
    · simp only [ho, Bool.false_eq_true, if_false] at h
      cases h
      refine ⟨rfl, rfl, rfl, ?_⟩
      intro hinv
      cases hr : s.channel_ready_ with
      | false => rfl
      | true =>
        obtain ⟨k1, hk1, ho1⟩ := hinv hr
        cases hk1
        exact absurd ho1 ho

/-- What `Establish` does once the old socket is dealt with and the name is resolved. -/
theorem Establish_eq (net : Network) (s s1 : StreamSocketsChannel M) (uri : String)
    (cands : List Candidate) (ht : Establish_teardown s = (Outcome.returned (), s1))
    (hr : net.resolve (net.GetHostnameFromURI uri) (net.GetPortFromURI uri) = Except.ok cands) :
    Establish net s uri =
      if (connect_loop (some ErrorCode.host_not_found) cands Socket.fresh).1.isSome then
        (Outcome.returned false,
          { s1 with
            client_socket_ := some (connect_loop (some ErrorCode.host_not_found) cands Socket.fresh).2.1,
            trace := s1.trace ++
              (connect_loop (some ErrorCode.host_not_found) cands Socket.fresh).2.2.map Event.connect })
      else
        (Outcome.returned true,
          { s1 with
            client_socket_ := some (connect_loop (some ErrorCode.host_not_found) cands Socket.fresh).2.1,
            trace := s1.trace ++
              (connect_loop (some ErrorCode.host_not_found) cands Socket.fresh).2.2.map Event.connect,
            io_service_work_ := true,
            client_io_service_ :=
              { work := s1.client_io_service_.work + 1 - (if s1.io_service_work_ then 1 else 0),
                threads := s1.client_io_service_.threads + 1 },
            channel_ready_ := true }) := by
  unfold Establish
  simp only [ht, hr]

theorem connect_loop_success_iff (cands : List Candidate) (e : ErrorCode) (k : Socket) :
    (connect_loop (some e) cands k).1 = none ↔ ∃ c ∈ cands, attempt_error c = none := by
  constructor
  · intro h
    by_contra hne
    have hall : ∀ x ∈ cands, attempt_error x ≠ none := fun x hx hx0 => hne ⟨x, hx, hx0⟩
    exact (connect_loop_all_fail cands e k hall).2.1 h
  · intro h
    obtain ⟨pre, c, post, hsplit, hpre, hc⟩ := exists_first_success cands h
    rw [hsplit, connect_loop_first_success pre c post e k hpre hc]

theorem connect_loop_success_open (cands : List Candidate) (e : ErrorCode) (k : Socket)
    (h : (connect_loop (some e) cands k).1 = none) :
    (connect_loop (some e) cands k).2.1.is_open = true := by
  obtain ⟨pre, c, post, hsplit, hpre, hc⟩ :=
    exists_first_success cands ((connect_loop_success_iff cands e k).mp h)
  rw [hsplit, connect_loop_first_success pre c post e k hpre hc]
  exact (attempt_error_none c hc).1

/-- C3, as the code has it: on a channel whose ready flag is set only when its socket is open,
`Ready()` after `Establish` is what `Establish` returned: true after true, false after
false. -/
theorem establish_decides_ready (net : Network) (s s1 : StreamSocketsChannel M) (uri : String)
    (r : Bool)
    (hinv : s.channel_ready_ = true → ∃ k, s.client_socket_ = some k ∧ k.is_open = true)
    (h : Establish net s uri = (Outcome.returned r, s1)) :
    Ready s1 = Outcome.returned r := by
  cases ht : Establish_teardown s with
  | mk o s0 =>
    cases o with
    | fault f => simp [Establish, ht] at h
    | returned u =>
      cases u
      cases hr : net.resolve (net.GetHostnameFromURI uri) (net.GetPortFromURI uri) with
      | error e => simp [Establish, ht, hr] at h
      | ok cands =>
        have hflag := (Establish_teardown_returned s s0 ht).2.2.2 hinv
        rw [Establish_eq net s s0 uri cands ht hr] at h
        split at h
        · obtain ⟨h1, h2⟩ := Prod.mk.inj h
          cases h1
          subst h2
          simp [Ready, hflag]
        · rename_i hsome
          obtain ⟨h1, h2⟩ := Prod.mk.inj h
          cases h1
          subst h2
          have hnone : (connect_loop (some ErrorCode.host_not_found) cands Socket.fresh).1 = none := by
            cases hc : (connect_loop (some ErrorCode.host_not_found) cands Socket.fresh).1 with
            | none => rfl
            | some e => rw [hc] at hsome; simp at hsome
          simp [Ready, connect_loop_success_open cands _ _ hnone]

/-- On a new channel, a failed `Establish` leaves `Ready()` false. -/
theorem establish_decides_ready_witness :
    Ready (Establish refusing_network
      (StreamSocketsChannel.create StreamSocketType.SS_TCP (fun _ => ([] : List Byte))).2
      "tcp:does-not-exist.invalid:1").2 = Outcome.returned false :=
  establish_decides_ready refusing_network
    (StreamSocketsChannel.create StreamSocketType.SS_TCP (fun _ => ([] : List Byte))).2
    (Establish refusing_network
      (StreamSocketsChannel.create StreamSocketType.SS_TCP (fun _ => ([] : List Byte))).2
      "tcp:does-not-exist.invalid:1").2
    "tcp:does-not-exist.invalid:1" false (by decide) (Prod.ext (by decide) rfl)

/-- C3, as stated, fails: on a channel whose ready flag is set while its socket is closed,
`Establish` returns false when the only candidate refuses the connection, and `Ready()` is true
afterwards: the flag was not cleared and the new socket was opened by the connect attempt. -/
theorem establish_ready_counterexample :
    stale_channel.channel_ready_ = true ∧
      Ready stale_channel = Outcome.returned false ∧
      (Establish refusing_network stale_channel "tcp:does-not-exist.invalid:1").1 =
        Outcome.returned false ∧
      Ready (Establish refusing_network stale_channel "tcp:does-not-exist.invalid:1").2 =
        Outcome.returned true := by
  decide

/-- C9. Candidate selection in `Establish`, once the old socket is dealt with and the name has
resolved to the list `cands`: the candidates are tried in list order, up to and including the
first whose connect succeeds, and the socket is left open and connected to that one;
`Establish` returns true exactly when some candidate succeeds; when every candidate fails all
of them are tried, `Establish` returns false, and the error is the one of the last candidate,
or `host_not_found` when the list is empty. -/
theorem establish_candidate_selection (net : Network) (s s1 : StreamSocketsChannel M)
    (uri : String) (cands : List Candidate)
    (ht : Establish_teardown s = (Outcome.returned (), s1))
    (hr : net.resolve (net.GetHostnameFromURI uri) (net.GetPortFromURI uri) = Except.ok cands) :
    (∀ pre c post, cands = pre ++ c :: post → (∀ x ∈ pre, attempt_error x ≠ none) →
        attempt_error c = none →
        (Establish net s uri).1 = Outcome.returned true ∧
        (Establish net s uri).2.trace =
          s.trace ++ (pre ++ [c]).map (fun x => Event.connect x.endpoint) ∧
        ∃ k, (Establish net s uri).2.client_socket_ = some k ∧ k.is_open = true ∧
          k.remote = some c.endpoint) ∧
      ((∀ x ∈ cands, attempt_error x ≠ none) →
        (Establish net s uri).1 = Outcome.returned false ∧
        (Establish net s uri).2.trace =
          s.trace ++ cands.map (fun x => Event.connect x.endpoint) ∧
        (connect_loop (some ErrorCode.host_not_found) cands Socket.fresh).1 =
          (match cands.getLast? with
           | none => some ErrorCode.host_not_found
           | some c => attempt_error c)) ∧
      ((Establish net s uri).1 = Outcome.returned true ↔ ∃ c ∈ cands, attempt_error c = none) := by
  have htr := (Establish_teardown_returned s s1 ht).1
  have hE := Establish_eq net s s1 uri cands ht hr
  refine ⟨?_, ?_, ?_⟩
  · intro pre c post hsplit hpre hc
    have hl := connect_loop_first_success pre c post ErrorCode.host_not_found Socket.fresh hpre hc
    rw [← hsplit] at hl
    rw [hE, hl]
    simp only [Option.isSome_none, Bool.false_eq_true, if_false, htr, List.map_map]
    exact ⟨trivial, rfl, _, rfl, attempt_error_none c hc⟩
  · intro hall
    obtain ⟨h1, h2, h3⟩ := connect_loop_all_fail cands ErrorCode.host_not_found Socket.fresh hall
    have hsome : (connect_loop (some ErrorCode.host_not_found) cands Socket.fresh).1.isSome = true := by
      cases hc : (connect_loop (some ErrorCode.host_not_found) cands Socket.fresh).1 with
      | none => exact absurd hc h2
      | some e => rfl
    rw [hE]
    simp only [hsome, if_true, htr, h3, List.map_map]
    exact ⟨trivial, rfl, h1⟩
  · rw [← connect_loop_success_iff cands ErrorCode.host_not_found Socket.fresh, hE]
    cases hc : (connect_loop (some ErrorCode.host_not_found) cands Socket.fresh).1 with
    | none => simp
    | some e => simp

/-- With a first candidate that refuses and a second that accepts, `Establish` tries both, in
this order, and returns true. -/
theorem establish_candidate_selection_witness :
    (Establish second_accepts_network (accepted_channel []) "tcp:example:1").1 =
        Outcome.returned true ∧
      (Establish second_accepts_network (accepted_channel []) "tcp:example:1").2.trace =
        [Event.connect { address := "192.0.2.1", port := 1 },
         Event.connect { address := "192.0.2.2", port := 1 }] := by
  obtain ⟨h1, -, -⟩ :=
    establish_candidate_selection second_accepts_network (accepted_channel [])
      (Establish_teardown (accepted_channel [])).2 "tcp:example:1"
      [{ endpoint := { address := "192.0.2.1", port := 1 },
         open_error := none,
         result := ConnectResult.refused (ErrorCode.other 111) },
       { endpoint := { address := "192.0.2.2", port := 1 },
         open_error := none,
         result := ConnectResult.established (peer_socket []).link }]
      (Prod.ext (by decide) rfl) rfl
  obtain ⟨h2, h3, -⟩ :=
    h1 [{ endpoint := { address := "192.0.2.1", port := 1 },
          open_error := none,
          result := ConnectResult.refused (ErrorCode.other 111) }]
      { endpoint := { address := "192.0.2.2", port := 1 },
        open_error := none,
        result := ConnectResult.established (peer_socket []).link } [] rfl (by decide) (by decide)
  exact ⟨h2, h3⟩

/-! ## A frame of length zero -/

/-- C5, as the code has it: on a ready channel whose next `sizeof(size_t)` inbound bytes
decode to the length 0, `RecvS` stops on the failed `CHECK_GT(msg_size, 0)`: it does not
return, it has taken the `sizeof(size_t)` bytes and nothing else from the socket, and it has
neither called `Parse` nor changed a destination envelope.  The second stage of the
asynchronous receive, completed without error with a size buffer that decodes to 0, stops on
the same check and leaves the channel as it was: nothing is parsed or delivered, no read is
queued and the mutex is not released. -/
theorem zero_length_frame (P : Platform) (env : Envelope M) (b : StreamSocketsChannel M)
    (message : Nat) (k : Socket)
    (hready : Ready b = Outcome.returned true) (hk : b.client_socket_ = some k)
    (hu : k.usable = true) (hW : P.sizeof_size_t ≤ k.link.inbound.length)
    (hz : bytes_to_size P (k.link.inbound.take P.sizeof_size_t) = 0) :
    RecvS P env b message =
        (Outcome.fault Fault.check_failed,
          with_socket b
            { k with link := { k.link with inbound := k.link.inbound.drop P.sizeof_size_t } }) ∧
      (RecvS P env b message).2.heap = b.heap ∧
      (RecvS P env b message).2.trace = b.trace ∧
      (∀ (s : StreamSocketsChannel M) (vec : List Byte), s.async_recv_buffer_vec_ = some vec →
        bytes_to_size P vec = 0 →
        RecvASecondStage P s none P.sizeof_size_t = (Outcome.fault Fault.check_failed, s)) := by
  have hlen : (k.link.inbound.take P.sizeof_size_t).length = P.sizeof_size_t := by
    rw [List.length_take]
    omega
  have hst : store (new_buffer P.sizeof_size_t) (k.link.inbound.take P.sizeof_size_t) =
      k.link.inbound.take P.sizeof_size_t :=
    store_full _ _ (by rw [hlen, new_buffer_length])
  have hR : RecvS P env b message =
      (Outcome.fault Fault.check_failed,
        with_socket b
          { k with link := { k.link with inbound := k.link.inbound.drop P.sizeof_size_t } }) := by
    unfold RecvS
    simp only [hready, hk, read_enough k _ hu hW, hst, hlen, hz]
    simp
  refine ⟨hR, by rw [hR]; rfl, by rw [hR]; rfl, ?_⟩
  intro s vec hvec hzero
  unfold RecvASecondStage
  simp [hvec, hzero]

/-- Eight inbound zero bytes on a 64-bit host: `RecvS` fails its check and parses nothing. -/
theorem zero_length_frame_witness :
    (RecvS host64 bytes_envelope (accepted_channel [0, 0, 0, 0, 0, 0, 0, 0]) 0).1 =
        Outcome.fault Fault.check_failed ∧
      (RecvS host64 bytes_envelope (accepted_channel [0, 0, 0, 0, 0, 0, 0, 0]) 0).2.trace = [] := by
  obtain ⟨h1, -, h3, -⟩ :=
    zero_length_frame host64 bytes_envelope (accepted_channel [0, 0, 0, 0, 0, 0, 0, 0]) 0
      (peer_socket [0, 0, 0, 0, 0, 0, 0, 0]) (by decide) rfl (by decide) (by decide) (by decide)
  exact ⟨by rw [h1], h3⟩

/-- C5, as stated, fails: on a ready channel whose next eight inbound bytes are zero, `RecvS`
does not return false: it does not return at all, the check `CHECK_GT(msg_size, 0)` fails. -/
theorem zero_length_frame_counterexample :
    Ready (accepted_channel [0, 0, 0, 0, 0, 0, 0, 0]) = Outcome.returned true ∧
      bytes_to_size host64 [0, 0, 0, 0, 0, 0, 0, 0] = 0 ∧
      (RecvS host64 bytes_envelope (accepted_channel [0, 0, 0, 0, 0, 0, 0, 0]) 0).1 ≠
        Outcome.returned false ∧
      (RecvS host64 bytes_envelope (accepted_channel [0, 0, 0, 0, 0, 0, 0, 0]) 0).1 =
        Outcome.fault Fault.check_failed := by
  decide

/-! ## Completion of an asynchronous send -/

/-- C6, as the code has it: when the writes queued by `SendA(E, cb)` complete and the write of
the data, the last of the two, completes without error, the callback is called on its
completion with no error and `bytes_transferred == E.size()`. -/
theorem send_async_completion (P : Platform) (env : Envelope M) (s s1 : StreamSocketsChannel M)
    (E : M) (cb : Nat) (k : Socket) (buf : List Byte)
    (hfit : env.size E < 256 ^ P.sizeof_size_t)
    (hq : s.write_queue = []) (hk : s.client_socket_ = some k)
    (hbuf : serialized P env E = some buf)
    (h : SendA P env s E cb = (Outcome.returned true, s1))
    (h2 : ((k.write (size_to_bytes P (env.size E))).2.2.write buf).1 = none) :
    (run_write (run_write s1)).trace.getLast? =
      some (Event.send_callback cb none (env.size E)) := by
  have hsz := to_size_t_of_lt P (env.size E) hfit
  obtain ⟨buf1, hb1, hs1⟩ := SendA_true P env s s1 E cb h
  rw [hbuf] at hb1
  cases hb1
  have hlen := serialized_length P env E buf hbuf
  rw [hsz] at hlen hs1
  obtain ⟨hn, -, -, -⟩ := write_ok _ _ h2
  subst hs1
  simp [run_write, hq, hk, h2, hn, hlen]

/-- Four bytes sent asynchronously on a 64-bit host: the last call of the callback reports
four bytes. -/
theorem send_async_completion_witness :
    (run_write (run_write
      (SendA host64 bytes_envelope (accepted_channel []) [1, 2, 3, 4] 7).2)).trace.getLast? =
      some (Event.send_callback 7 none 4) :=
  send_async_completion host64 bytes_envelope (accepted_channel [])
    (SendA host64 bytes_envelope (accepted_channel []) [1, 2, 3, 4] 7).2 [1, 2, 3, 4] 7
    (peer_socket []) [1, 2, 3, 4] (by decide) rfl rfl (by decide) (Prod.ext (by decide) rfl)
    (by decide)

/-- C6, as stated, fails: four bytes are sent asynchronously on a 64-bit host and both queued
writes complete without error; the callback is called with 8 bytes and then with 4 bytes, and
never with `sizeof(size_t) + E.size() = 12`. -/
theorem send_async_completion_counterexample :
    (run_write (run_write
      (SendA host64 bytes_envelope (accepted_channel []) [1, 2, 3, 4] 7).2)).trace =
        [Event.send_callback 7 none 8, Event.send_callback 7 none 4] ∧
      Event.send_callback 7 none (host64.sizeof_size_t + bytes_envelope.size [1, 2, 3, 4]) ∉
        (run_write (run_write
          (SendA host64 bytes_envelope (accepted_channel []) [1, 2, 3, 4] 7).2)).trace := by
  decide

/-! ## The asynchronous receive -/

theorem RecvA_true (P : Platform) (s : StreamSocketsChannel M) (message callback : Nat)
    (h : (RecvA P s message callback).1 = Outcome.returned true) :
    ∃ k, Ready s = Outcome.returned true ∧ s.async_recv_lock_ = false ∧
      s.client_socket_ = some k ∧
      RecvA P s message callback =
        (Outcome.returned true,
          { s with async_recv_lock_ := true,
                   trace := s.trace ++ [Event.lock],
                   async_recv_message_ptr_ := some message,
                   async_recv_callback_ := some callback,
                   async_recv_buffer_vec_ := some (new_buffer P.sizeof_size_t),
                   read_queue := s.read_queue ++
                     [{ size := P.sizeof_size_t, handler := ReadHandler.RecvASecondStage }] }) := by
  have hr : Ready s = Outcome.returned true := by
    cases hr : Ready s with
    | fault f => simp [RecvA, hr] at h
    | returned r =>
      cases r with
      | false => simp [RecvA, hr] at h
      | true => rfl
  have hl : s.async_recv_lock_ = false := by
    cases hl : s.async_recv_lock_ with
    | true => simp [RecvA, hr, hl] at h
    | false => rfl
  cases hk : s.client_socket_ with
  | none => simp [RecvA, hr, hl, hk] at h
  | some k =>
    refine ⟨k, hr, hl, rfl, ?_⟩
    simp [RecvA, hr, hl, hk]

/-- The six ways an asynchronous receive goes once `RecvA` has returned true, by the results
`c2` and `c3` of the two reads: what the receive ends with, the events since its start, and
whether the mutex is held at the end. -/
theorem recv_async_paths (P : Platform) (env : Envelope M) (s : StreamSocketsChannel M)
    (message callback : Nat) (c2 c3 : Completion) (hq : s.read_queue = [])
    (hret : (RecvA P s message callback).1 = Outcome.returned true) :
    ((c2.error ≠ none ∨ c2.data.length ≠ P.sizeof_size_t) →
        (recv_async P env s message callback c2 c3).1 = Outcome.returned () ∧
        (recv_async P env s message callback c2 c3).2.trace =
          s.trace ++ [Event.lock, Event.unlock] ∧
        (recv_async P env s message callback c2 c3).2.async_recv_lock_ = false) ∧
      (c2.error = none → c2.data.length = P.sizeof_size_t → decoded_size P c2 = 0 →
        (recv_async P env s message callback c2 c3).1 = Outcome.fault Fault.check_failed ∧
        (recv_async P env s message callback c2 c3).2.trace = s.trace ++ [Event.lock] ∧
        (recv_async P env s message callback c2 c3).2.async_recv_lock_ = true) ∧
      (c2.error = none → c2.data.length = P.sizeof_size_t → decoded_size P c2 ≠ 0 →
        P.max_alloc < decoded_size P c2 →
        (recv_async P env s message callback c2 c3).1 = Outcome.fault Fault.bad_alloc ∧
        (recv_async P env s message callback c2 c3).2.trace = s.trace ++ [Event.lock] ∧
        (recv_async P env s message callback c2 c3).2.async_recv_lock_ = true) ∧
      (c2.error = none → c2.data.length = P.sizeof_size_t → decoded_size P c2 ≠ 0 →
        decoded_size P c2 ≤ P.max_alloc → c3.error ≠ none →
        (recv_async P env s message callback c2 c3).1 = Outcome.returned () ∧
        (recv_async P env s message callback c2 c3).2.trace =
          s.trace ++ [Event.lock, Event.unlock] ∧
        (recv_async P env s message callback c2 c3).2.async_recv_lock_ = false) ∧
      (c2.error = none → c2.data.length = P.sizeof_size_t → decoded_size P c2 ≠ 0 →
        decoded_size P c2 ≤ P.max_alloc → c3.error = none → c3.data.length = 0 →
        (recv_async P env s message callback c2 c3).1 = Outcome.fault Fault.check_failed ∧
        (recv_async P env s message callback c2 c3).2.trace = s.trace ++ [Event.lock] ∧
        (recv_async P env s message callback c2 c3).2.async_recv_lock_ = true) ∧
      (c2.error = none → c2.data.length = P.sizeof_size_t → decoded_size P c2 ≠ 0 →
        decoded_size P c2 ≤ P.max_alloc → c3.error = none → c3.data.length ≠ 0 →
        (recv_async P env s message callback c2 c3).1 = Outcome.returned () ∧
        (recv_async P env s message callback c2 c3).2.trace =
          s.trace ++ [Event.lock,
            Event.parse message (store (new_buffer (decoded_size P c2)) c3.data) c3.data.length
              (env.Parse (s.heap message) (store (new_buffer (decoded_size P c2)) c3.data)
                c3.data.length).1,
            Event.unlock, Event.recv_callback callback none c3.data.length] ∧
        (recv_async P env s message callback c2 c3).2.async_recv_lock_ = false) := by
  obtain ⟨k, hr, hl, hk, hA⟩ := RecvA_true P s message callback hret
  unfold recv_async decoded_size
  rw [hA]
  simp only [complete_read, hq, List.nil_append]
  refine ⟨?_, ?_, ?_, ?_, ?_, ?_⟩
  · intro h
    by_cases e2 : c2.error = none
    · have l2 : c2.data.length ≠ P.sizeof_size_t := by
        rcases h with h | h
        · exact absurd e2 h
        · exact h
      simp [RecvASecondStage, unlock, e2, l2]
    · have e2s : c2.error.isSome = true := by
        cases h1 : c2.error with
        | none => exact absurd h1 e2
        | some e => rfl
      simp [RecvASecondStage, unlock, e2s]
  · intro e2 l2 z
    simp [RecvASecondStage, e2, l2, z]
  · intro e2 l2 z hm
    simp [RecvASecondStage, e2, l2, z, hm]
  · intro e2 l2 z hm e3
    have hm1 : ¬P.max_alloc < bytes_to_size P (store (new_buffer P.sizeof_size_t) c2.data) := by
      omega
    have e3s : c3.error.isSome = true := by
      cases h1 : c3.error with
      | none => exact absurd h1 e3
      | some e => rfl
    simp [RecvASecondStage, RecvAThirdStage, unlock, e2, l2, z, hm1, hk, e3, e3s]
  · intro e2 l2 z hm e3 l3
    have hm1 : ¬P.max_alloc < bytes_to_size P (store (new_buffer P.sizeof_size_t) c2.data) := by
      omega
    simp [RecvASecondStage, RecvAThirdStage, e2, l2, z, hm1, hk, e3, l3]
  · intro e2 l2 z hm e3 l3
    have hm1 : ¬P.max_alloc < bytes_to_size P (store (new_buffer P.sizeof_size_t) c2.data) := by
      omega
    simp [RecvASecondStage, RecvAThirdStage, unlock, e2, l2, z, hm1, hk, e3, l3]

/-- The three shapes of the events of an asynchronous receive: a single release without
callback, nothing at all before a failed `CHECK` or allocation, or a parse, the release and
the callback. -/
theorem recv_async_shapes (P : Platform) (env : Envelope M) (s : StreamSocketsChannel M)
    (message callback : Nat) (c2 c3 : Completion) (hq : s.read_queue = [])
    (hret : (RecvA P s message callback).1 = Outcome.returned true) :
    ((recv_async P env s message callback c2 c3).1 = Outcome.returned () ∧
        (recv_async P env s message callback c2 c3).2.trace =
          s.trace ++ [Event.lock, Event.unlock] ∧
        (recv_async P env s message callback c2 c3).2.async_recv_lock_ = false ∧
        ¬(c2.error = none ∧ c2.data.length = P.sizeof_size_t ∧ c3.error = none)) ∨
      (((recv_async P env s message callback c2 c3).1 = Outcome.fault Fault.check_failed ∨
          (recv_async P env s message callback c2 c3).1 = Outcome.fault Fault.bad_alloc) ∧
        (recv_async P env s message callback c2 c3).2.trace = s.trace ++ [Event.lock] ∧
        (recv_async P env s message callback c2 c3).2.async_recv_lock_ = true) ∨
      ((recv_async P env s message callback c2 c3).1 = Outcome.returned () ∧
        (∃ buf ok, (recv_async P env s message callback c2 c3).2.trace =
          s.trace ++ [Event.lock, Event.parse message buf c3.data.length ok, Event.unlock,
            Event.recv_callback callback none c3.data.length]) ∧
        (recv_async P env s message callback c2 c3).2.async_recv_lock_ = false ∧
        c2.error = none ∧ c2.data.length = P.sizeof_size_t ∧ c3.error = none) := by
  obtain ⟨pA, pB, pC, pD, pE, pF⟩ := recv_async_paths P env s message callback c2 c3 hq hret
  by_cases e2 : c2.error = none
  · by_cases l2 : c2.data.length = P.sizeof_size_t
    · by_cases z : decoded_size P c2 = 0
      · obtain ⟨h1, h2, h3⟩ := pB e2 l2 z
        exact Or.inr (Or.inl ⟨Or.inl h1, h2, h3⟩)
      · by_cases hm : P.max_alloc < decoded_size P c2
        · obtain ⟨h1, h2, h3⟩ := pC e2 l2 z hm
          exact Or.inr (Or.inl ⟨Or.inr h1, h2, h3⟩)
        · have hm1 : decoded_size P c2 ≤ P.max_alloc := Nat.le_of_not_lt hm
          by_cases e3 : c3.error = none
          · by_cases l3 : c3.data.length = 0
            · obtain ⟨h1, h2, h3⟩ := pE e2 l2 z hm1 e3 l3
              exact Or.inr (Or.inl ⟨Or.inl h1, h2, h3⟩)
            · obtain ⟨h1, h2, h3⟩ := pF e2 l2 z hm1 e3 l3
              exact Or.inr (Or.inr ⟨h1, ⟨_, _, h2⟩, h3, e2, l2, e3⟩)
          · obtain ⟨h1, h2, h3⟩ := pD e2 l2 z hm1 e3
            exact Or.inl ⟨h1, h2, h3, fun h => e3 h.2.2⟩
    · obtain ⟨h1, h2, h3⟩ := pA (Or.inr l2)
      exact Or.inl ⟨h1, h2, h3, fun h => l2 h.2.1⟩
  · obtain ⟨h1, h2, h3⟩ := pA (Or.inl e2)
    exact Or.inl ⟨h1, h2, h3, fun h => e2 h.1⟩

/-- C7. Lock discipline of the asynchronous receive.  Take a channel with no read queued on
which `RecvA` returns true, and any completion results `c2` for the read of the size and `c3`
for the read of the data.

The mutex was free and is taken at the entry of `RecvA`; along the events `tr` that follow,
the discipline holds: `Parse` and the release happen with the mutex held, the callback with
the mutex free.  When the receive returns, the mutex has been released exactly once and is
free.  The callback is called exactly when both reads complete without error and the receive
returns; it is then the last event, after the release.

Each of the four terminal paths returns and releases the mutex exactly once: an error or a
short read in the second stage, an end of file in the third stage, another error in the third
stage (after these three the events are the lock and the release, with no callback), and the
success of the third stage (the lock, the parse, the release, the callback).  The receive
does not return only when a `CHECK` fails (length 0, or no bytes read without error) or when
the buffer for the data cannot be allocated: then nothing follows the lock and the mutex stays
held. -/
theorem async_receive_lock_discipline (P : Platform) (env : Envelope M)
    (s : StreamSocketsChannel M) (message callback : Nat) (c2 c3 : Completion)
    (hq : s.read_queue = [])
    (hret : (RecvA P s message callback).1 = Outcome.returned true) :
    (∃ tr, (recv_async P env s message callback c2 c3).2.trace = s.trace ++ Event.lock :: tr ∧
      s.async_recv_lock_ = false ∧
      disciplined false (Event.lock :: tr) = true ∧
      ((recv_async P env s message callback c2 c3).1 = Outcome.returned () ∨
        (recv_async P env s message callback c2 c3).1 = Outcome.fault Fault.check_failed ∨
        (recv_async P env s message callback c2 c3).1 = Outcome.fault Fault.bad_alloc) ∧
      ((recv_async P env s message callback c2 c3).1 = Outcome.returned () →
        tr.count Event.unlock = 1 ∧ held_after true tr = false ∧
        (recv_async P env s message callback c2 c3).2.async_recv_lock_ = false) ∧
      ((recv_async P env s message callback c2 c3).1 ≠ Outcome.returned () →
        tr = [] ∧ (recv_async P env s message callback c2 c3).2.async_recv_lock_ = true) ∧
      ((∃ cb err n, Event.recv_callback cb err n ∈ tr) ↔
        ((recv_async P env s message callback c2 c3).1 = Outcome.returned () ∧
          c2.error = none ∧ c2.data.length = P.sizeof_size_t ∧ c3.error = none)) ∧
      (∀ cb err n, Event.recv_callback cb err n ∈ tr →
        cb = callback ∧ err = none ∧ n = c3.data.length ∧
        ∃ pre, tr = pre ++ [Event.recv_callback cb err n] ∧ Event.unlock ∈ pre ∧
          held_after true pre = false)) ∧
    ((c2.error ≠ none ∨ c2.data.length ≠ P.sizeof_size_t) →
        (recv_async P env s message callback c2 c3).1 = Outcome.returned () ∧
        (recv_async P env s message callback c2 c3).2.trace =
          s.trace ++ [Event.lock, Event.unlock] ∧
        (recv_async P env s message callback c2 c3).2.async_recv_lock_ = false) ∧
    (c2.error = none → c2.data.length = P.sizeof_size_t → decoded_size P c2 ≠ 0 →
        decoded_size P c2 ≤ P.max_alloc → c3.error = some ErrorCode.eof →
        (recv_async P env s message callback c2 c3).1 = Outcome.returned () ∧
        (recv_async P env s message callback c2 c3).2.trace =
          s.trace ++ [Event.lock, Event.unlock] ∧
        (recv_async P env s message callback c2 c3).2.async_recv_lock_ = false) ∧
    (c2.error = none → c2.data.length = P.sizeof_size_t → decoded_size P c2 ≠ 0 →
        decoded_size P c2 ≤ P.max_alloc → c3.error ≠ none →
        (recv_async P env s message callback c2 c3).1 = Outcome.returned () ∧
        (recv_async P env s message callback c2 c3).2.trace =
          s.trace ++ [Event.lock, Event.unlock] ∧
        (recv_async P env s message callback c2 c3).2.async_recv_lock_ = false) ∧
    (c2.error = none → c2.data.length = P.sizeof_size_t → decoded_size P c2 ≠ 0 →
        decoded_size P c2 ≤ P.max_alloc → c3.error = none → c3.data.length ≠ 0 →
        (recv_async P env s message callback c2 c3).1 = Outcome.returned () ∧
        (recv_async P env s message callback c2 c3).2.trace =
          s.trace ++ [Event.lock,
            Event.parse message (store (new_buffer (decoded_size P c2)) c3.data) c3.data.length
              (env.Parse (s.heap message) (store (new_buffer (decoded_size P c2)) c3.data)
                c3.data.length).1,
            Event.unlock, Event.recv_callback callback none c3.data.length] ∧
        (recv_async P env s message callback c2 c3).2.async_recv_lock_ = false) ∧
    (c2.error = none → c2.data.length = P.sizeof_size_t →
        (decoded_size P c2 = 0 ∨ P.max_alloc < decoded_size P c2 ∨
          (c3.error = none ∧ c3.data.length = 0)) →
        (recv_async P env s message callback c2 c3).1 ≠ Outcome.returned () ∧
        (recv_async P env s message callback c2 c3).2.trace = s.trace ++ [Event.lock] ∧
        (recv_async P env s message callback c2 c3).2.async_recv_lock_ = true) := by
  obtain ⟨pA, pB, pC, pD, pE, pF⟩ := recv_async_paths P env s message callback c2 c3 hq hret
  refine ⟨?_, pA, ?_, pD, pF, ?_⟩
  · obtain ⟨k, -, hl, -, -⟩ := RecvA_true P s message callback hret
    rcases recv_async_shapes P env s message callback c2 c3 hq hret with
      ⟨h1, h2, h3, h4⟩ | ⟨h1, h2, h3⟩ | ⟨h1, ⟨buf, ok, h2⟩, h3, h4, h5, h6⟩
    · refine ⟨[Event.unlock], h2, hl, rfl, Or.inl h1, ?_, ?_, ?_, ?_⟩
      · intro _
        exact ⟨rfl, rfl, h3⟩
      · intro hf
        exact absurd h1 hf
      · constructor
        · rintro ⟨cb, err, n, hmem⟩
          simp at hmem
        · rintro ⟨-, a, b, c⟩
          exact absurd ⟨a, b, c⟩ h4
      · intro cb err n hmem
        simp at hmem
    · have hnr : (recv_async P env s message callback c2 c3).1 ≠ Outcome.returned () := by
        rcases h1 with h1 | h1 <;> rw [h1] <;> simp
      refine ⟨[], h2, hl, rfl, Or.inr h1, ?_, ?_, ?_, ?_⟩
      · intro hf
        exact absurd hf hnr
      · intro _
        exact ⟨rfl, h3⟩
      · constructor
        · rintro ⟨cb, err, n, hmem⟩
          simp at hmem
        · rintro ⟨hf, -⟩
          exact absurd hf hnr
      · intro cb err n hmem
        simp at hmem
    · refine ⟨[Event.parse message buf c3.data.length ok, Event.unlock,
          Event.recv_callback callback none c3.data.length], h2, hl, rfl, Or.inl h1, ?_, ?_, ?_, ?_⟩
      · intro _
        exact ⟨by simp [List.count_cons], rfl, h3⟩
      · intro hf
        exact absurd h1 hf
      · constructor
        · intro _
          exact ⟨h1, h4, h5, h6⟩
        · intro _
          exact ⟨callback, none, c3.data.length, by simp⟩
      · intro cb err n hmem
        simp only [List.mem_cons, List.mem_singleton, reduceCtorEq, false_or,
          Event.recv_callback.injEq, List.not_mem_nil, or_false] at hmem
        obtain ⟨rfl, rfl, rfl⟩ := hmem
        exact ⟨rfl, rfl, rfl, [Event.parse message buf c3.data.length ok, Event.unlock], rfl,
          by simp, rfl⟩
  · intro e2 l2 z hm e3
    exact pD e2 l2 z hm (by rw [e3]; simp)
  · intro e2 l2 h
    by_cases z : decoded_size P c2 = 0
    · obtain ⟨h1, h2, h3⟩ := pB e2 l2 z
      exact ⟨by rw [h1]; simp, h2, h3⟩
    · by_cases hm : P.max_alloc < decoded_size P c2
      · obtain ⟨h1, h2, h3⟩ := pC e2 l2 z hm
        exact ⟨by rw [h1]; simp, h2, h3⟩
      · rcases h with h | h | ⟨e3, l3⟩
        · exact absurd h z
        · exact absurd h hm
        · obtain ⟨h1, h2, h3⟩ := pE e2 l2 z (Nat.le_of_not_lt hm) e3 l3
          exact ⟨by rw [h1]; simp, h2, h3⟩

/-- Receives on a 64-bit host.  The one byte 42 arrives: the events after the lock follow the
discipline and end with the callback.  The read of the size fails: the receive returns after
the lock and the release. -/
theorem async_receive_lock_discipline_witness :
    (∃ tr, (recv_async host64 bytes_envelope (accepted_channel []) 0 7
          { error := none, data := [1, 0, 0, 0, 0, 0, 0, 0] }
          { error := none, data := [42] }).2.trace = [] ++ Event.lock :: tr ∧
        disciplined false (Event.lock :: tr) = true ∧
        (∃ cb err n, Event.recv_callback cb err n ∈ tr)) ∧
      (recv_async host64 bytes_envelope (accepted_channel []) 0 7
          { error := some ErrorCode.eof, data := [] }
          { error := none, data := [42] }).2.trace = [] ++ [Event.lock, Event.unlock] := by
  obtain ⟨⟨tr, h1, -, h3, -, -, -, h7, -⟩, -⟩ :=
    async_receive_lock_discipline host64 bytes_envelope (accepted_channel []) 0 7
      { error := none, data := [1, 0, 0, 0, 0, 0, 0, 0] } { error := none, data := [42] }
      rfl (by decide)
  obtain ⟨-, hA, -⟩ :=
    async_receive_lock_discipline host64 bytes_envelope (accepted_channel []) 0 7
      { error := some ErrorCode.eof, data := [] } { error := none, data := [42] }
      rfl (by decide)
  exact ⟨⟨tr, h1, h3, h7.mpr ⟨by decide, rfl, rfl, rfl⟩⟩, (hA (Or.inl (by decide))).2.1⟩

/-! ## Synchronous and asynchronous receive -/

theorem read_ok_length (k : Socket) (n : Nat) (h : (k.read n).1 = none) :
    (k.read n).2.1.length = n := by
  unfold Socket.read at h ⊢
  by_cases h0 : n = 0
  · simp [h0]
  · simp only [h0, if_false] at h ⊢
    split at h
    · cases h
    · split at h
      · cases h
      · split at h
        · cases h
        · split at h
          · rename_i hn
            simp [*]
          · cases h

theorem Ready_true (s : StreamSocketsChannel M) (h : Ready s = Outcome.returned true) :
    s.channel_ready_ = true ∧ ∃ k, s.client_socket_ = some k ∧ k.is_open = true := by
  unfold Ready at h
  cases hf : s.channel_ready_ with
  | false => simp [hf] at h
  | true =>
    cases hk : s.client_socket_ with
    | none => simp [hf, hk] at h
    | some k =>
      simp only [hf, hk, if_true] at h
      exact ⟨rfl, k, rfl, Outcome.returned.inj h⟩

/-- The synchronous and the asynchronous receive, started on the same ready channel (mutex
free, no read queued), take the same bytes from the socket and leave the same envelopes.
Either neither of them calls `Parse`, the callback is not called and `RecvS` does not return
true; or both call `Parse` on the same envelope with the same buffer and length, `RecvS`
returns the result of `Parse`, and the callback is called with no error whatever that result
is. -/
theorem recv_sync_async (P : Platform) (env : Envelope M) (b : StreamSocketsChannel M)
    (message callback : Nat) (hready : Ready b = Outcome.returned true)
    (hl : b.async_recv_lock_ = false) (hq : b.read_queue = []) :
    (recv_async_socket P env b message callback).2.client_socket_ =
        (RecvS P env b message).2.client_socket_ ∧
      (recv_async_socket P env b message callback).2.heap = (RecvS P env b message).2.heap ∧
      (((RecvS P env b message).1 ≠ Outcome.returned true ∧
          (RecvS P env b message).2.trace = b.trace ∧
          ((recv_async_socket P env b message callback).2.trace = b.trace ++ [Event.lock] ∨
            (recv_async_socket P env b message callback).2.trace =
              b.trace ++ [Event.lock, Event.unlock])) ∨
        (∃ buf len ok,
          (RecvS P env b message).1 = Outcome.returned ok ∧
          (RecvS P env b message).2.trace = b.trace ++ [Event.parse message buf len ok] ∧
          (recv_async_socket P env b message callback).2.trace =
            b.trace ++ [Event.lock, Event.parse message buf len ok, Event.unlock,
              Event.recv_callback callback none len])) := by
  obtain ⟨hf, k, hk, ho⟩ := Ready_true b hready
  have hA : RecvA P b message callback =
      (Outcome.returned true,
        { b with async_recv_lock_ := true,
                 trace := b.trace ++ [Event.lock],
                 async_recv_message_ptr_ := some message,
                 async_recv_callback_ := some callback,
                 async_recv_buffer_vec_ := some (new_buffer P.sizeof_size_t),
                 read_queue := [{ size := P.sizeof_size_t, handler := ReadHandler.RecvASecondStage }] }) := by
    simp [RecvA, hready, hl, hk, hq]
  unfold recv_async_socket RecvS
  rw [hA]
  simp only [hready, hk, run_read, complete_read, with_socket]
  by_cases e1 : (k.read P.sizeof_size_t).1 = none
  · have l1 := read_ok_length k _ e1
    by_cases z : bytes_to_size P (store (new_buffer P.sizeof_size_t) (k.read P.sizeof_size_t).2.1) = 0
    · simp [RecvASecondStage, e1, l1, z]
    · by_cases hm : P.max_alloc <
          bytes_to_size P (store (new_buffer P.sizeof_size_t) (k.read P.sizeof_size_t).2.1)
      · simp [RecvASecondStage, e1, l1, z, hm]
      · by_cases e2 : ((k.read P.sizeof_size_t).2.2.read
            (bytes_to_size P (store (new_buffer P.sizeof_size_t) (k.read P.sizeof_size_t).2.1))).1 = none
        · have l2 := read_ok_length _ _ e2
          simp [RecvASecondStage, RecvAThirdStage, unlock, e1, l1, z, hm, e2, l2]
        · have e2s : ((k.read P.sizeof_size_t).2.2.read
              (bytes_to_size P (store (new_buffer P.sizeof_size_t) (k.read P.sizeof_size_t).2.1))).1.isSome
                = true := by
            cases h : ((k.read P.sizeof_size_t).2.2.read
              (bytes_to_size P (store (new_buffer P.sizeof_size_t) (k.read P.sizeof_size_t).2.1))).1 with
            | none => exact absurd h e2
            | some e => rfl
          simp [RecvASecondStage, RecvAThirdStage, unlock, e1, l1, z, hm, e2, e2s]
  · have e1s : (k.read P.sizeof_size_t).1.isSome = true := by
      cases h : (k.read P.sizeof_size_t).1 with
      | none => exact absurd h e1
      | some e => rfl
    simp [RecvASecondStage, unlock, e1, e1s]

/-- C10 at a frame whose payload the envelope refuses.  On a 64-bit host the socket holds a
frame of length 1 with the byte 255, which `Parse` refuses.  `RecvS` and the asynchronous
receive take the same nine bytes from the socket and call `Parse` with the same buffer and
the same length; `RecvS` returns false, the result of `Parse`, while the third stage drops
that result and calls the callback with no error and one byte. -/
theorem sync_async_parse_failure :
    Ready (accepted_channel [1, 0, 0, 0, 0, 0, 0, 0, 255]) = Outcome.returned true ∧
      (RecvS host64 bytes_envelope (accepted_channel [1, 0, 0, 0, 0, 0, 0, 0, 255]) 0).1 =
        Outcome.returned false ∧
      (RecvS host64 bytes_envelope (accepted_channel [1, 0, 0, 0, 0, 0, 0, 0, 255]) 0).2.trace =
        [Event.parse 0 [255] 1 false] ∧
      (recv_async_socket host64 bytes_envelope
          (accepted_channel [1, 0, 0, 0, 0, 0, 0, 0, 255]) 0 7).1 = Outcome.returned () ∧
      (recv_async_socket host64 bytes_envelope
          (accepted_channel [1, 0, 0, 0, 0, 0, 0, 0, 255]) 0 7).2.trace =
        [Event.lock, Event.parse 0 [255] 1 false, Event.unlock, Event.recv_callback 7 none 1] ∧
      (recv_async_socket host64 bytes_envelope
          (accepted_channel [1, 0, 0, 0, 0, 0, 0, 0, 255]) 0 7).2.client_socket_ =
        (RecvS host64 bytes_envelope
          (accepted_channel [1, 0, 0, 0, 0, 0, 0, 0, 255]) 0).2.client_socket_ := by
  decide

end Firmament
